import Mathlib

/-!
The `/status` facade of forseti, its request instrumentation, and the parking view.

A shallow embedding of

* `src/api/api.go` (package `api`): `LoadingStatus`, `StatusResponse`,
  `StatusHandler`, `instrumentGin`, `SetupRouter`;
* `src/api.go` (package `sytralrt`): `ParkingResponse`, `ParkingModelToResponse`.

Handlers are state transformers over an explicit environment `Env` holding the
feed contexts reachable from the `*manager.DataManager`, the two Prometheus
collectors and gin's response writer.  A Go panic is an exception of the handler
monad that keeps the state reached so far; `c.JSON` panics when `encoding/json`
cannot encode the object.

Requests served at the same time are goroutines that make the same calls one at a
time under an arbitrary schedule; `Goroutine_alone` shows that a goroutine running
alone does what the sequential `serveStatus` does.
-/

namespace api

/-! ## Values -/

/-- Go `time.Time`, kept as the signed number of nanoseconds since the instant
denoted by the zero value (January 1, year 1, 00:00:00 UTC). -/
structure Time where
  nanos : Int
deriving DecidableEq, Repr

/-- The zero value of `time.Time`, what `var t time.Time` holds. -/
def Time.zero : Time := ⟨0⟩

/-- `LoadingStatus` of `src/api/api.go`. -/
structure LoadingStatus where
  RefreshActive : Bool
  LastUpdate : Time
deriving DecidableEq, Repr

/-- `StatusResponse` of `src/api/api.go`, the object returned by `/status`. -/
structure StatusResponse where
  Status : String
  Version : String
  LastDepartureUpdate : Time
  LastParkingUpdate : Time
  LastEquipmentUpdate : Time
  FreeFloatings : LoadingStatus
  VehicleOccupancies : LoadingStatus
deriving DecidableEq, Repr

/-- Go `Time.Year` of an instant read in UTC: the day count since January 1 of
year 1 is cut into 400-year, 100-year, 4-year and 1-year cycles as in `absDate`
of package `time` (the divisions round down, so instants before year 1 are
covered). -/
def Time.Year (t : Time) : Int :=
  let d := t.nanos / (86400 * 1000000000)
  let n400 := d / 146097
  let d := d - 146097 * n400
  let n100 := d / 36524
  let n100 := n100 - n100 / 4
  let d := d - 36524 * n100
  let n4 := d / 1461
  let d := d - 1461 * n4
  let n1 := d / 365
  let n1 := n1 - n1 / 4
  400 * n400 + 100 * n100 + 4 * n4 + n1 + 1

/-- A JSON string, boolean or timestamp; `time t` stands for the quoted RFC 3339
text of `t`. -/
inductive JSONScalar where
  | string (s : String)
  | bool (b : Bool)
  | time (t : Time)
deriving DecidableEq, Repr

/-- A member value of the `/status` document: a scalar or a flat object. -/
inductive JSONValue where
  | scalar (x : JSONScalar)
  | object (members : List (String × JSONScalar))
deriving DecidableEq, Repr

/-- Go `Time.MarshalJSON`: it fails for a year outside 0..9999. -/
def Time.MarshalJSON (t : Time) : Except String JSONScalar :=
  if t.Year < 0 ∨ t.Year ≥ 10000 then
    Except.error "Time.MarshalJSON: year outside of range [0,9999]"
  else Except.ok (JSONScalar.time t)

/-- What `encoding/json` makes of a `LoadingStatus`: the members in field order
under the names of the struct tags; the first failing member fails the whole. -/
def LoadingStatus.Marshal (l : LoadingStatus) : Except String (List (String × JSONScalar)) := do
  let lastUpdate ← l.LastUpdate.MarshalJSON
  return [("refresh_active", JSONScalar.bool l.RefreshActive), ("last_update", lastUpdate)]

/-- What `encoding/json` makes of a `StatusResponse`: the members in field order
under the names of the struct tags; `omitempty` drops an empty string and has no
effect on a struct value; the first failing member fails the whole. -/
def StatusResponse.Marshal (r : StatusResponse) : Except String (List (String × JSONValue)) := do
  let lastDepartureUpdate ← r.LastDepartureUpdate.MarshalJSON
  let lastParkingUpdate ← r.LastParkingUpdate.MarshalJSON
  let lastEquipmentUpdate ← r.LastEquipmentUpdate.MarshalJSON
  let freeFloatings ← r.FreeFloatings.Marshal
  let vehicleOccupancies ← r.VehicleOccupancies.Marshal
  return (if r.Status = "" then [] else [("status", JSONValue.scalar (JSONScalar.string r.Status))]) ++
    (if r.Version = "" then []
      else [("version", JSONValue.scalar (JSONScalar.string r.Version))]) ++
    [("last_departure_update", JSONValue.scalar lastDepartureUpdate),
     ("last_parking_update", JSONValue.scalar lastParkingUpdate),
     ("last_equipment_update", JSONValue.scalar lastEquipmentUpdate),
     ("free_floatings", JSONValue.object freeFloatings),
     ("vehicle_occupancies", JSONValue.object vehicleOccupancies)]

/-- Member names of an encoded object, in order. -/
def jsonKeys {α : Type} (members : List (String × α)) : List String :=
  members.map Prod.fst

/-! ## Feed contexts -/

/-- Modelled from the spec: the free-floating `FeedContext` (package
`internal/freefloatings` is not part of the sources); its attributes are
`enabled` and `lastRefreshTimestamp`. -/
structure FreeFloatingsContext where
  loadFreeFloatingData : Bool
  lastFreeFloatingsDataUpdate : Time
deriving DecidableEq, Repr

/-- Modelled from the spec: the vehicle-occupancy `FeedContext` (package
`internal/vehicleoccupancies` is not part of the sources); its attributes are
`enabled` and `lastRefreshTimestamp`. -/
structure VehicleOccupanciesContext where
  loadOccupancyData : Bool
  lastVehicleOccupanciesDataUpdate : Time
deriving DecidableEq, Repr

/-- Modelled from the spec: the equipments `FeedContext` (package
`internal/equipments` is not part of the sources); a feed that is not
toggle-capable only carries its last-refresh timestamp. -/
structure EquipmentsContext where
  lastEquipmentUpdate : Time
deriving DecidableEq, Repr

/-- Modelled from the spec: the departures `FeedContext` (package
`internal/departures` is not part of the sources). -/
structure DeparturesContext where
  lastDepartureUpdate : Time
deriving DecidableEq, Repr

/-- Modelled from the spec: the parkings `FeedContext` (package
`internal/parkings` is not part of the sources). -/
structure ParkingsContext where
  lastParkingUpdate : Time
deriving DecidableEq, Repr

/-- Modelled from the spec: `manager.DataManager` (package `internal/manager` is
not part of the sources) holds an optional reference to each of the five feed
contexts; `none` is the nil pointer of a feed that is not configured. -/
structure DataManager where
  freeFloatingsContext : Option FreeFloatingsContext
  vehicleOccupanciesContext : Option VehicleOccupanciesContext
  equipmentsContext : Option EquipmentsContext
  departuresContext : Option DeparturesContext
  parkingsContext : Option ParkingsContext
deriving DecidableEq, Repr

/-! ## Environment and handler monad -/

/-- Label values of one `httpDurations` sample: `handler` and `code`. -/
structure Labels where
  handler : String
  code : String
deriving DecidableEq, Repr

/-- One `Observe` call on `httpDurations`: its labels and the elapsed time (kept
in clock units rather than as a float number of seconds). -/
structure Observation where
  labels : Labels
  elapsed : Int
deriving DecidableEq, Repr

/-- Everything a handler can read or write. -/
structure Env where
  /-- the contexts behind the `*manager.DataManager` the router was set up with -/
  manager : DataManager
  /-- value of the gauge `httpInFlight` -/
  httpInFlight : Int
  /-- samples recorded in the histogram vector `httpDurations`, latest first -/
  httpDurations : List Observation
  /-- what `time.Now()` returns -/
  now : Int
  /-- `c.Writer.Status()` -/
  status : Int
  /-- the value handed to `c.JSON`, if any -/
  body : Option StatusResponse
  /-- the JSON document written to the response, if any -/
  written : Option (List (String × JSONValue))
deriving DecidableEq, Repr

/-- A Go run-time panic. -/
inductive Panic where
  | nilPointerDereference
  | renderError (err : String)
deriving DecidableEq, Repr

deriving instance DecidableEq for Except

/-- A `gin.HandlerFunc` body: it may panic, and the state reached is kept either
way. -/
abbrev Handler := ExceptT Panic (StateM Env)

/-- Run a handler from an environment. -/
def Handler.exec {α : Type} (h : Handler α) (env : Env) : Except Panic α × Env :=
  StateT.run (ExceptT.run h) env

/-- The read-only part of a `*gin.Context`: the parsed URL query
(`url.Values`, a multimap) and the name of the route's main handler. -/
structure GinContext where
  queryCache : List (String × List String)
  handlerName : String
deriving DecidableEq, Repr

/-- `(*gin.Context).Query`: the first value of the key, `""` when there is none. -/
def GinContext.Query (c : GinContext) (key : String) : String :=
  match c.queryCache.lookup key with
  | some (v :: _) => v
  | _ => ""

/-- `(*gin.Context).JSON`, that is `c.Render(code, render.JSON{obj})`: set the
response status, encode the object and write the document; when the encoder
fails nothing is written and `Render` panics with the error (gin up to v1.8). -/
def JSON (code : Int) (obj : StatusResponse) : Handler Unit := do
  modify fun env => { env with status := code, body := some obj }
  match obj.Marshal with
  | Except.ok doc => modify fun env => { env with written := some doc }
  | Except.error err => throw (Panic.renderError err)

/-- Error value of `strconv.ParseBool`. -/
inductive NumError where
  | errSyntax (fn : String) (num : String)
deriving DecidableEq, Repr

/-- Go `strconv.ParseBool`: accepts 1, t, T, TRUE, true, True, 0, f, F, FALSE,
false, False; any other value returns `false` and an error. -/
def ParseBool (str : String) : Bool × Option NumError :=
  match str with
  | "1" | "t" | "T" | "TRUE" | "true" | "True" => (true, none)
  | "0" | "f" | "F" | "FALSE" | "false" | "False" => (false, none)
  | _ => (false, some (NumError.errSyntax "ParseBool" str))

/-! ## Context methods -/

/-- `manager.GetFreeFloatingsContext()`. -/
def GetFreeFloatingsContext : Handler (Option FreeFloatingsContext) := do
  return (← get).manager.freeFloatingsContext

/-- `manager.GetVehiculeOccupanciesContext()`. -/
def GetVehiculeOccupanciesContext : Handler (Option VehicleOccupanciesContext) := do
  return (← get).manager.vehicleOccupanciesContext

/-- `manager.GetEquipmentsContext()`. -/
def GetEquipmentsContext : Handler (Option EquipmentsContext) := do
  return (← get).manager.equipmentsContext

/-- `manager.GetDeparturesContext()`. -/
def GetDeparturesContext : Handler (Option DeparturesContext) := do
  return (← get).manager.departuresContext

/-- `manager.GetParkingsContext()`. -/
def GetParkingsContext : Handler (Option ParkingsContext) := do
  return (← get).manager.parkingsContext

/-- Modelled from the spec: `ManageFreeFloatingsStatus` is the `SetEnabled(bool)`
of the free-floating context, called on `manager.GetFreeFloatingsContext()`; it
writes the enabled flag only. -/
def ManageFreeFloatingsStatus (activate : Bool) : Handler Unit := do
  let env ← get
  match env.manager.freeFloatingsContext with
  | none => throw Panic.nilPointerDereference
  | some d =>
    set { env with manager :=
      { env.manager with freeFloatingsContext := some { d with loadFreeFloatingData := activate } } }

/-- Modelled from the spec: `LoadFreeFloatingsData` is the `IsEnabled()` of the
free-floating context. -/
def LoadFreeFloatingsData : Handler Bool := do
  match (← get).manager.freeFloatingsContext with
  | none => throw Panic.nilPointerDereference
  | some d => return d.loadFreeFloatingData

/-- Modelled from the spec: `GetLastFreeFloatingsDataUpdate` is the
`GetLastUpdate()` of the free-floating context. -/
def GetLastFreeFloatingsDataUpdate : Handler Time := do
  match (← get).manager.freeFloatingsContext with
  | none => throw Panic.nilPointerDereference
  | some d => return d.lastFreeFloatingsDataUpdate

/-- Modelled from the spec: `ManageVehicleOccupancyStatus` is the
`SetEnabled(bool)` of the vehicle-occupancy context; it writes the enabled flag
only. -/
def ManageVehicleOccupancyStatus (activate : Bool) : Handler Unit := do
  let env ← get
  match env.manager.vehicleOccupanciesContext with
  | none => throw Panic.nilPointerDereference
  | some d =>
    set { env with manager :=
      { env.manager with vehicleOccupanciesContext := some { d with loadOccupancyData := activate } } }

/-- Modelled from the spec: `LoadOccupancyData` is the `IsEnabled()` of the
vehicle-occupancy context. -/
def LoadOccupancyData : Handler Bool := do
  match (← get).manager.vehicleOccupanciesContext with
  | none => throw Panic.nilPointerDereference
  | some d => return d.loadOccupancyData

/-- Modelled from the spec: `GetLastVehicleOccupanciesDataUpdate` is the
`GetLastUpdate()` of the vehicle-occupancy context. -/
def GetLastVehicleOccupanciesDataUpdate : Handler Time := do
  match (← get).manager.vehicleOccupanciesContext with
  | none => throw Panic.nilPointerDereference
  | some d => return d.lastVehicleOccupanciesDataUpdate

/-- Modelled from the spec: `GetLastEquipmentsDataUpdate` is the
`GetLastUpdate()` of the equipments context. -/
def GetLastEquipmentsDataUpdate : Handler Time := do
  match (← get).manager.equipmentsContext with
  | none => throw Panic.nilPointerDereference
  | some d => return d.lastEquipmentUpdate

/-- Modelled from the spec: `GetLastDepartureDataUpdate` is the
`GetLastUpdate()` of the departures context. -/
def GetLastDepartureDataUpdate : Handler Time := do
  match (← get).manager.departuresContext with
  | none => throw Panic.nilPointerDereference
  | some d => return d.lastDepartureUpdate

/-- Modelled from the spec: `GetLastParkingsDataUpdate` is the
`GetLastUpdate()` of the parkings context. -/
def GetLastParkingsDataUpdate : Handler Time := do
  match (← get).manager.parkingsContext with
  | none => throw Panic.nilPointerDereference
  | some d => return d.lastParkingUpdate

/-! ## `StatusHandler` -/

/-- `StatusHandler` of `src/api/api.go`; `ForsetiVersion` stands for the constant
`forseti.ForsetiVersion`. -/
def StatusHandler (ForsetiVersion : String) (c : GinContext) : Handler Unit := do
  let mut lastFreeFloatingsDataUpdate : Time := Time.zero
  let mut loadFreeFloatingData : Bool := false
  if (← GetFreeFloatingsContext).isSome then
    -- manage freefloating activation /status?free_floatings=true or false
    let freeFloatingStatus := c.Query "free_floatings"
    if freeFloatingStatus.utf8ByteSize > 0 then
      let (toActive, _) := ParseBool freeFloatingStatus
      ManageFreeFloatingsStatus toActive
    lastFreeFloatingsDataUpdate ← GetLastFreeFloatingsDataUpdate
    loadFreeFloatingData ← LoadFreeFloatingsData

  let mut lastVehicleOccupanciesDataUpdate : Time := Time.zero
  let mut loadVehicleOccupanciesData : Bool := false
  if (← GetVehiculeOccupanciesContext).isSome then
    -- manage vehicleoccupancy activation /status?vehicle_occupancies=true or false
    let vehicleOccupancyStatus := c.Query "vehicle_occupancies"
    if vehicleOccupancyStatus.utf8ByteSize > 0 then
      let (toActive, _) := ParseBool vehicleOccupancyStatus
      ManageVehicleOccupancyStatus toActive
    lastVehicleOccupanciesDataUpdate ← GetLastVehicleOccupanciesDataUpdate
    loadVehicleOccupanciesData ← LoadOccupancyData

  let mut lastEquipmentDataUpdate : Time := Time.zero
  if (← GetEquipmentsContext).isSome then
    lastEquipmentDataUpdate ← GetLastEquipmentsDataUpdate

  let mut lastDeparturesDataUpdate : Time := Time.zero
  if (← GetDeparturesContext).isSome then
    lastDeparturesDataUpdate ← GetLastDepartureDataUpdate

  let mut lastParkingsDataUpdate : Time := Time.zero
  if (← GetParkingsContext).isSome then
    lastParkingsDataUpdate ← GetLastParkingsDataUpdate

  JSON 200
    { Status := "ok"
      Version := ForsetiVersion
      LastDepartureUpdate := lastDeparturesDataUpdate
      LastParkingUpdate := lastParkingsDataUpdate
      LastEquipmentUpdate := lastEquipmentDataUpdate
      FreeFloatings := ⟨loadFreeFloatingData, lastFreeFloatingsDataUpdate⟩
      VehicleOccupancies := ⟨loadVehicleOccupanciesData, lastVehicleOccupanciesDataUpdate⟩ }

/-! ## `instrumentGin` and `SetupRouter` -/

/-- Go `strconv.Itoa`: the decimal representation of an `int`. -/
def Itoa (i : Int) : String := toString i

/-- Go `time.Now()`, read from the environment's clock. -/
def timeNow : Handler Int := do
  return (← get).now

/-- `httpInFlight.Inc()`. -/
def httpInFlightInc : Handler Unit :=
  modify fun env => { env with httpInFlight := env.httpInFlight + 1 }

/-- `httpInFlight.Dec()`. -/
def httpInFlightDec : Handler Unit :=
  modify fun env => { env with httpInFlight := env.httpInFlight - 1 }

/-- `httpDurations.With(labels).Observe(v)`: one more sample under the labels. -/
def httpDurationsObserve (labels : Labels) (v : Int) : Handler Unit :=
  modify fun env => { env with httpDurations := ⟨labels, v⟩ :: env.httpDurations }

/-- `c.Writer.Status()`. -/
def writerStatus : Handler Int := do
  return (← get).status

/-- `instrumentGin` of `src/api/api.go`; `next` is the rest of the handler chain,
which `c.Next()` runs.  A panic of `next` propagates: nothing after `c.Next()` is
deferred. -/
def instrumentGin (c : GinContext) (next : Handler Unit) : Handler Unit := do
  let begin ← timeNow
  httpInFlightInc
  next
  httpInFlightDec
  let code ← writerStatus
  let since := (← timeNow) - begin
  httpDurationsObserve { handler := c.handlerName, code := Itoa code } since

/-- `gin.Recovery()`: a panic of the rest of the chain is recovered and answered
with status 500. -/
def Recovery (next : Handler Unit) : Handler Unit :=
  tryCatch next fun _ => modify fun env => { env with status := 500 }

/-- What `c.HandlerName()` returns on the `/status` route: the name of the last
handler of the chain, the closure `StatusHandler` returns. -/
def statusHandlerName : String := "github.com/CanalTP/forseti/api.StatusHandler.func1"

/-- `SetupRouter` of `src/api/api.go`, as the handler chain the engine runs for a
path: `instrumentGin`, `gin.Recovery()`, then the route's handler.  The ginrus
logger in front only logs; `/metrics` and the pprof routes are served by library
handlers and are not part of the model. -/
def SetupRouter (ForsetiVersion : String) (path : String) :
    Option (String × (GinContext → Handler Unit)) :=
  if path = "/status" then
    some (statusHandlerName,
      fun c => instrumentGin c (Recovery (StatusHandler ForsetiVersion c)))
  else none

/-- One `GET /status?query` served by the engine: gin resets the response writer
(status 200, nothing written) and runs the chain of the route. -/
def serveStatus (ForsetiVersion : String) (query : List (String × List String)) (env : Env) :
    Except Panic Unit × Env :=
  match SetupRouter ForsetiVersion "/status" with
  | some (name, chain) =>
    (chain { queryCache := query, handlerName := name }).exec
      { env with status := 200, body := none, written := none }
  | none => (Except.ok (), env)

/-- Requests served one after the other. -/
def serveAll (ForsetiVersion : String) : List (List (String × List String)) → Env → Env
  | [], env => env
  | q :: qs, env => serveAll ForsetiVersion qs (serveStatus ForsetiVersion q env).2

/-- Sample count of the histogram `httpDurations` under the given labels. -/
def histogramCount (env : Env) (labels : Labels) : Nat :=
  env.httpDurations.countP fun o => o.labels = labels

/-- An environment with both toggle-capable feeds configured and enabled. -/
def env0 : Env :=
  { manager :=
      { freeFloatingsContext := some ⟨true, ⟨5⟩⟩
        vehicleOccupanciesContext := some ⟨true, ⟨6⟩⟩
        equipmentsContext := none
        departuresContext := some ⟨⟨7⟩⟩
        parkingsContext := some ⟨⟨8⟩⟩ }
    httpInFlight := 0
    httpDurations := []
    now := 0
    status := 200
    body := none
    written := none }

/-- An environment in which no feed is configured. -/
def envAbsent : Env :=
  { manager :=
      { freeFloatingsContext := none
        vehicleOccupanciesContext := none
        equipmentsContext := none
        departuresContext := none
        parkingsContext := none }
    httpInFlight := 0
    httpDurations := []
    now := 0
    status := 200
    body := none
    written := none }

/-- An environment whose only feed, equipments, was last refreshed on January 1 of
year 10000, 00:00:00 UTC. -/
def envLate : Env :=
  { manager :=
      { freeFloatingsContext := none
        vehicleOccupanciesContext := none
        equipmentsContext := some ⟨⟨315537897600000000000⟩⟩
        departuresContext := none
        parkingsContext := none }
    httpInFlight := 0
    httpDurations := []
    now := 0
    status := 200
    body := none
    written := none }

/-- The last-refresh timestamps of the configured contexts. -/
def DataManager.lastUpdates (m : DataManager) : List Time :=
  (m.departuresContext.map (·.lastDepartureUpdate)).toList ++
  (m.parkingsContext.map (·.lastParkingUpdate)).toList ++
  (m.equipmentsContext.map (·.lastEquipmentUpdate)).toList ++
  (m.freeFloatingsContext.map (·.lastFreeFloatingsDataUpdate)).toList ++
  (m.vehicleOccupanciesContext.map (·.lastVehicleOccupanciesDataUpdate)).toList

/-- Every configured context's last-refresh timestamp has a year in 0..9999. -/
def DataManager.yearsInRange (m : DataManager) : Prop :=
  ∀ t ∈ m.lastUpdates, 0 ≤ t.Year ∧ t.Year < 10000

instance (m : DataManager) : Decidable m.yearsInRange := by
  unfold DataManager.yearsInRange; infer_instance

/-- Number of samples of `httpDurations` recorded for a handler, under any code. -/
def handlerCount (env : Env) (handler : String) : Nat :=
  env.httpDurations.countP fun o => o.labels.handler = handler

/-- A request context of the `/status` route carrying the given query. -/
def statusContext (query : List (String × List String)) : GinContext :=
  { queryCache := query, handlerName := statusHandlerName }

/-! ## Requests served concurrently

Each request runs in its own goroutine.  A goroutine advances by one call on
shared state at a time (a collector, the clock or a feed context, each
synchronised on its own); between two such calls any other goroutine may run.
The calls and their order are those of `instrumentGin`, `gin.Recovery()` and
`StatusHandler`; the guard `!= nil` is evaluated again at each call of a block,
which is the same branch since no handler reassigns the manager's pointers. -/

/-- The local variables of one `/status` request: `begin` of `instrumentGin` and
the variables of the `StatusHandler` closure. -/
structure StatusLocals where
  begin : Int
  lastFreeFloatingsDataUpdate : Time
  loadFreeFloatingData : Bool
  lastVehicleOccupanciesDataUpdate : Time
  loadVehicleOccupanciesData : Bool
  lastEquipmentDataUpdate : Time
  lastDeparturesDataUpdate : Time
  lastParkingsDataUpdate : Time
deriving DecidableEq, Repr

/-- The call a `/status` request makes at program point `pc`, with its effect on
the local variables. -/
def statusStep (ForsetiVersion : String) (c : GinContext) (vars : StatusLocals) :
    Nat → Handler StatusLocals
  | 0 => do
    let begin ← timeNow
    return { vars with begin := begin }
  | 1 => do
    httpInFlightInc
    return vars
  | 2 => do
    if (← GetFreeFloatingsContext).isSome then
      let freeFloatingStatus := c.Query "free_floatings"
      if freeFloatingStatus.utf8ByteSize > 0 then
        let (toActive, _) := ParseBool freeFloatingStatus
        ManageFreeFloatingsStatus toActive
    return vars
  | 3 => do
    if (← GetFreeFloatingsContext).isSome then
      let t ← GetLastFreeFloatingsDataUpdate
      return { vars with lastFreeFloatingsDataUpdate := t }
    return vars
  | 4 => do
    if (← GetFreeFloatingsContext).isSome then
      let b ← LoadFreeFloatingsData
      return { vars with loadFreeFloatingData := b }
    return vars
  | 5 => do
    if (← GetVehiculeOccupanciesContext).isSome then
      let vehicleOccupancyStatus := c.Query "vehicle_occupancies"
      if vehicleOccupancyStatus.utf8ByteSize > 0 then
        let (toActive, _) := ParseBool vehicleOccupancyStatus
        ManageVehicleOccupancyStatus toActive
    return vars
  | 6 => do
    if (← GetVehiculeOccupanciesContext).isSome then
      let t ← GetLastVehicleOccupanciesDataUpdate
      return { vars with lastVehicleOccupanciesDataUpdate := t }
    return vars
  | 7 => do
    if (← GetVehiculeOccupanciesContext).isSome then
      let b ← LoadOccupancyData
      return { vars with loadVehicleOccupanciesData := b }
    return vars
  | 8 => do
    if (← GetEquipmentsContext).isSome then
      let t ← GetLastEquipmentsDataUpdate
      return { vars with lastEquipmentDataUpdate := t }
    return vars
  | 9 => do
    if (← GetDeparturesContext).isSome then
      let t ← GetLastDepartureDataUpdate
      return { vars with lastDeparturesDataUpdate := t }
    return vars
  | 10 => do
    if (← GetParkingsContext).isSome then
      let t ← GetLastParkingsDataUpdate
      return { vars with lastParkingsDataUpdate := t }
    return vars
  | 11 => do
    JSON 200
      { Status := "ok"
        Version := ForsetiVersion
        LastDepartureUpdate := vars.lastDeparturesDataUpdate
        LastParkingUpdate := vars.lastParkingsDataUpdate
        LastEquipmentUpdate := vars.lastEquipmentDataUpdate
        FreeFloatings := ⟨vars.loadFreeFloatingData, vars.lastFreeFloatingsDataUpdate⟩
        VehicleOccupancies :=
          ⟨vars.loadVehicleOccupanciesData, vars.lastVehicleOccupanciesDataUpdate⟩ }
    return vars
  | 12 => do
    httpInFlightDec
    return vars
  | 13 => do
    let code ← writerStatus
    let since := (← timeNow) - vars.begin
    httpDurationsObserve { handler := c.handlerName, code := Itoa code } since
    return vars
  | _ => return vars

/-- A goroutine serving one `/status` request: the request, the program point
reached (14 when the request is complete), the local variables and the response
writer of the request. -/
structure Goroutine where
  c : GinContext
  pc : Nat
  vars : StatusLocals
  status : Int
  body : Option StatusResponse
  written : Option (List (String × JSONValue))
deriving DecidableEq, Repr

/-- The goroutine of a request that has just been accepted. -/
def Goroutine.start (query : List (String × List String)) : Goroutine :=
  { c := statusContext query
    pc := 0
    vars := ⟨0, Time.zero, false, Time.zero, false, Time.zero, Time.zero, Time.zero⟩
    status := 200
    body := none
    written := none }

/-- One step of a goroutine on the shared environment.  The call runs against the
goroutine's own response writer.  A panic at a program point of the handler
(2 to 11) is recovered by `gin.Recovery()`: status 500, and control is back in
`instrumentGin` after `c.Next()`; a panic elsewhere ends the goroutine. -/
def Goroutine.step (ForsetiVersion : String) (g : Goroutine) (env : Env) : Goroutine × Env :=
  if g.pc < 14 then
    match (statusStep ForsetiVersion g.c g.vars g.pc).exec
        { env with status := g.status, body := g.body, written := g.written } with
    | (Except.ok vars, e) =>
      ({ g with pc := g.pc + 1, vars := vars, status := e.status, body := e.body,
                written := e.written },
        { e with status := env.status, body := env.body, written := env.written })
    | (Except.error _, e) =>
      ({ g with pc := if 2 ≤ g.pc ∧ g.pc ≤ 11 then 12 else 14,
                status := if 2 ≤ g.pc ∧ g.pc ≤ 11 then 500 else e.status,
                body := e.body, written := e.written },
        { e with status := env.status, body := env.body, written := env.written })
  else (g, env)

/-- The goroutine at index `i` takes one step; an index out of range is a no-op. -/
def stepAt (ForsetiVersion : String) (i : Nat) (gs : List Goroutine) (env : Env) :
    List Goroutine × Env :=
  match gs[i]? with
  | none => (gs, env)
  | some g => (gs.set i (g.step ForsetiVersion env).1, (g.step ForsetiVersion env).2)

/-- Run the goroutines under a schedule: the list of the indices of the goroutines
that take the successive steps. -/
def runSchedule (ForsetiVersion : String) :
    List Nat → List Goroutine → Env → List Goroutine × Env
  | [], gs, env => (gs, env)
  | i :: schedule, gs, env =>
    runSchedule ForsetiVersion schedule (stepAt ForsetiVersion i gs env).1
      (stepAt ForsetiVersion i gs env).2

/-- The object a request hands to `c.JSON`, built from its local variables. -/
def statusObject (ForsetiVersion : String) (vars : StatusLocals) : StatusResponse :=
  { Status := "ok"
    Version := ForsetiVersion
    LastDepartureUpdate := vars.lastDeparturesDataUpdate
    LastParkingUpdate := vars.lastParkingsDataUpdate
    LastEquipmentUpdate := vars.lastEquipmentDataUpdate
    FreeFloatings := ⟨vars.loadFreeFloatingData, vars.lastFreeFloatingsDataUpdate⟩
    VehicleOccupancies :=
      ⟨vars.loadVehicleOccupanciesData, vars.lastVehicleOccupanciesDataUpdate⟩ }

/-- Free-floating context after the toggle block of `StatusHandler` ran with the
query value `s`. -/
def afterFreeFloatingsToggle (s : String) (ctx : Option FreeFloatingsContext) :
    Option FreeFloatingsContext :=
  if s.utf8ByteSize > 0 then
    ctx.map fun d => { d with loadFreeFloatingData := (ParseBool s).1 }
  else ctx

/-- Vehicle-occupancy context after the toggle block of `StatusHandler` ran with
the query value `s`. -/
def afterVehicleOccupanciesToggle (s : String) (ctx : Option VehicleOccupanciesContext) :
    Option VehicleOccupanciesContext :=
  if s.utf8ByteSize > 0 then
    ctx.map fun d => { d with loadOccupancyData := (ParseBool s).1 }
  else ctx

/-- Manager after one `StatusHandler` run. -/
def managerAfter (c : GinContext) (m : DataManager) : DataManager :=
  { m with
    freeFloatingsContext := afterFreeFloatingsToggle (c.Query "free_floatings") m.freeFloatingsContext
    vehicleOccupanciesContext :=
      afterVehicleOccupanciesToggle (c.Query "vehicle_occupancies") m.vehicleOccupanciesContext }

/-- The `LoadingStatus` read from a (possibly absent) free-floating context. -/
def freeFloatingsStatus : Option FreeFloatingsContext → LoadingStatus
  | none => ⟨false, Time.zero⟩
  | some d => ⟨d.loadFreeFloatingData, d.lastFreeFloatingsDataUpdate⟩

/-- The `LoadingStatus` read from a (possibly absent) vehicle-occupancy context. -/
def vehicleOccupanciesStatus : Option VehicleOccupanciesContext → LoadingStatus
  | none => ⟨false, Time.zero⟩
  | some d => ⟨d.loadOccupancyData, d.lastVehicleOccupanciesDataUpdate⟩

/-- The object `StatusHandler` hands to `c.JSON`, from the manager it leaves. -/
def responseOf (ForsetiVersion : String) (m : DataManager) : StatusResponse :=
  { Status := "ok"
    Version := ForsetiVersion
    LastDepartureUpdate := (m.departuresContext.map (·.lastDepartureUpdate)).getD Time.zero
    LastParkingUpdate := (m.parkingsContext.map (·.lastParkingUpdate)).getD Time.zero
    LastEquipmentUpdate := (m.equipmentsContext.map (·.lastEquipmentUpdate)).getD Time.zero
    FreeFloatings := freeFloatingsStatus m.freeFloatingsContext
    VehicleOccupancies := vehicleOccupanciesStatus m.vehicleOccupanciesContext }

end api

namespace sytralrt

/-- Smallest value of a Go `int` (64-bit). -/
def minInt : Int := -2 ^ 63

/-- Largest value of a Go `int` (64-bit). -/
def maxInt : Int := 2 ^ 63 - 1

/-- Result of Go `int` arithmetic: the two's complement value in 64 bits of the
mathematical result. -/
def wrapInt (x : Int) : Int := (x + 2 ^ 63) % 2 ^ 64 - 2 ^ 63

/-- The fields of `Parking` that `ParkingModelToResponse` reads (the type is
declared outside `src/api.go`); the counts are Go `int`s. -/
structure Parking where
  ID : String
  UpdatedTime : api.Time
  AvailableStandardSpaces : Int
  AvailableAccessibleSpaces : Int
  TotalStandardSpaces : Int
  TotalAccessibleSpaces : Int
deriving DecidableEq, Repr

/-- The counts of a `Parking` are values of the Go type `int`. -/
def Parking.inRange (p : Parking) : Prop :=
  (minInt ≤ p.AvailableStandardSpaces ∧ p.AvailableStandardSpaces ≤ maxInt) ∧
  (minInt ≤ p.AvailableAccessibleSpaces ∧ p.AvailableAccessibleSpaces ≤ maxInt) ∧
  (minInt ≤ p.TotalStandardSpaces ∧ p.TotalStandardSpaces ≤ maxInt) ∧
  (minInt ≤ p.TotalAccessibleSpaces ∧ p.TotalAccessibleSpaces ≤ maxInt)

instance (p : Parking) : Decidable p.inRange := by
  unfold Parking.inRange; infer_instance

/-- `ParkingResponse` of `src/api.go`. -/
structure ParkingResponse where
  ID : String
  UpdatedTime : api.Time
  AvailableSpaces : Int
  OccupiedSpaces : Int
  AvailableAccessibleSpaces : Int
  OccupiedAccessibleSpaces : Int
deriving DecidableEq, Repr

/-- `ParkingModelToResponse` of `src/api.go`. -/
def ParkingModelToResponse (p : Parking) : ParkingResponse :=
  { ID := p.ID
    UpdatedTime := p.UpdatedTime
    AvailableSpaces := p.AvailableStandardSpaces
    OccupiedSpaces := wrapInt (p.TotalStandardSpaces - p.AvailableStandardSpaces)
    AvailableAccessibleSpaces := p.AvailableAccessibleSpaces
    OccupiedAccessibleSpaces := wrapInt (p.TotalAccessibleSpaces - p.AvailableAccessibleSpaces) }

/-- A parking whose standard-space subtraction overflows. -/
def overflowParking : Parking :=
  { ID := "P1", UpdatedTime := ⟨0⟩, AvailableStandardSpaces := 1, AvailableAccessibleSpaces := 0,
    TotalStandardSpaces := -2 ^ 63, TotalAccessibleSpaces := 0 }

/-- A parking with 30 of 100 standard spaces available and more accessible spaces
available (5) than in total (4). -/
def fullParking : Parking :=
  { ID := "P2", UpdatedTime := ⟨0⟩, AvailableStandardSpaces := 30, AvailableAccessibleSpaces := 5,
    TotalStandardSpaces := 100, TotalAccessibleSpaces := 4 }

end sytralrt

/-! ## Proofs -/

namespace api

/-! ## Running handlers -/

theorem utf8ByteSize_pos_of_ne (s : String) (h : s ≠ "") : s.utf8ByteSize > 0 := by
  obtain ⟨cs⟩ := s
  cases cs with
  | nil => exact absurd rfl h
  | cons a as =>
    have ha := Char.utf8Size_pos a
    simp only [String.utf8ByteSize, String.utf8ByteSize.go]
    omega

theorem ParseBool_ok_ne_empty (s : String) (b : Bool) (h : ParseBool s = (b, none)) :
    s.utf8ByteSize > 0 := by
  apply utf8ByteSize_pos_of_ne
  rintro rfl
  cases b <;> exact absurd h (by decide)

theorem exec_bind {α β : Type} (x : Handler α) (f : α → Handler β) (env : Env) :
    (x >>= f).exec env =
      match x.exec env with
      | (Except.ok a, e) => (f a).exec e
      | (Except.error p, e) => (Except.error p, e) := by
  simp only [Handler.exec, ExceptT.run_bind, StateT.run_bind]
  generalize StateT.run (ExceptT.run x) env = r
  obtain ⟨_ | _, e⟩ := r <;> rfl

theorem exec_timeNow (env : Env) : timeNow.exec env = (Except.ok env.now, env) := rfl

theorem exec_writerStatus (env : Env) : writerStatus.exec env = (Except.ok env.status, env) := rfl

theorem exec_httpInFlightInc (env : Env) :
    httpInFlightInc.exec env =
      (Except.ok (), { env with httpInFlight := env.httpInFlight + 1 }) := rfl

theorem exec_httpInFlightDec (env : Env) :
    httpInFlightDec.exec env =
      (Except.ok (), { env with httpInFlight := env.httpInFlight - 1 }) := rfl

theorem exec_httpDurationsObserve (labels : Labels) (v : Int) (env : Env) :
    (httpDurationsObserve labels v).exec env =
      (Except.ok (), { env with httpDurations := ⟨labels, v⟩ :: env.httpDurations }) := rfl

theorem instrumentGin_exec (c : GinContext) (next : Handler Unit) (env env2 : Env)
    (h : next.exec { env with httpInFlight := env.httpInFlight + 1 } = (Except.ok (), env2)) :
    (instrumentGin c next).exec env =
      (Except.ok (),
        { env2 with
          httpInFlight := env2.httpInFlight - 1
          httpDurations :=
            ⟨⟨c.handlerName, Itoa env2.status⟩, env2.now - env.now⟩ :: env2.httpDurations }) := by
  simp only [instrumentGin, exec_bind, exec_timeNow, exec_httpInFlightInc, h,
    exec_httpInFlightDec, exec_writerStatus, exec_httpDurationsObserve]

theorem instrumentGin_exec_panic (c : GinContext) (next : Handler Unit) (env env2 : Env)
    (p : Panic)
    (h : next.exec { env with httpInFlight := env.httpInFlight + 1 } = (Except.error p, env2)) :
    (instrumentGin c next).exec env = (Except.error p, env2) := by
  simp only [instrumentGin, exec_bind, exec_timeNow, exec_httpInFlightInc, h]

theorem exec_Recovery (next : Handler Unit) (env : Env) :
    (Recovery next).exec env =
      match next.exec env with
      | (Except.ok a, e) => (Except.ok a, e)
      | (Except.error _, e) => (Except.ok (), { e with status := 500 }) := by
  simp only [Recovery, Handler.exec, tryCatch, tryCatchThe, MonadExceptOf.tryCatch,
    ExceptT.tryCatch, ExceptT.run_mk, StateT.run_bind]
  have hrun : StateT.run (ExceptT.run next) env = StateT.run next env := rfl
  rw [hrun]
  generalize StateT.run next env = r
  obtain ⟨_ | _, e⟩ := r <;> rfl

theorem exec_JSON (code : Int) (obj : StatusResponse) (env : Env) :
    (JSON code obj).exec env =
      match obj.Marshal with
      | Except.ok doc =>
        (Except.ok (), { env with status := code, body := some obj, written := some doc })
      | Except.error err =>
        (Except.error (Panic.renderError err), { env with status := code, body := some obj }) := by
  unfold JSON
  generalize obj.Marshal = m
  cases m <;> rfl

theorem StatusHandler_run (ForsetiVersion : String) (c : GinContext) (env : Env) :
    (StatusHandler ForsetiVersion c).exec env =
      (JSON 200 (responseOf ForsetiVersion (managerAfter c env.manager))).exec
        { env with manager := managerAfter c env.manager } := by
  obtain ⟨⟨ff, vo, eq, dep, pk⟩, a, b, n, st, bd, wr⟩ := env
  unfold StatusHandler managerAfter afterFreeFloatingsToggle afterVehicleOccupanciesToggle
  dsimp only
  generalize JSON 200 = k
  generalize c.Query "free_floatings" = s1
  generalize c.Query "vehicle_occupancies" = s2
  generalize ParseBool s1 = p1
  generalize ParseBool s2 = p2
  obtain ⟨b1, e1⟩ := p1
  obtain ⟨b2, e2⟩ := p2
  by_cases h1 : s1.utf8ByteSize > 0 <;> by_cases h2 : s2.utf8ByteSize > 0 <;>
  simp only [h1, h2, if_true, if_false] <;>
  cases ff <;> cases vo <;> cases eq <;> cases dep <;> cases pk <;> rfl

theorem StatusHandler_exec (ForsetiVersion : String) (c : GinContext) (env : Env) :
    ((StatusHandler ForsetiVersion c).exec env).2 =
      { env with
        manager := managerAfter c env.manager
        status := 200
        body := some (responseOf ForsetiVersion (managerAfter c env.manager))
        written :=
          match (responseOf ForsetiVersion (managerAfter c env.manager)).Marshal with
          | Except.ok doc => some doc
          | Except.error _ => env.written } := by
  rw [StatusHandler_run, exec_JSON]
  generalize (responseOf ForsetiVersion (managerAfter c env.manager)).Marshal = m
  cases m <;> rfl

theorem StatusHandler_exec_fst (ForsetiVersion : String) (c : GinContext) (env : Env) :
    ((StatusHandler ForsetiVersion c).exec env).1 =
      match (responseOf ForsetiVersion (managerAfter c env.manager)).Marshal with
      | Except.ok _ => Except.ok ()
      | Except.error err => Except.error (Panic.renderError err) := by
  rw [StatusHandler_run, exec_JSON]
  generalize (responseOf ForsetiVersion (managerAfter c env.manager)).Marshal = m
  cases m <;> rfl

/-! ## The toggle block -/

theorem afterFreeFloatingsToggle_some (s : String) (d : FreeFloatingsContext)
    (h : s.utf8ByteSize > 0) :
    afterFreeFloatingsToggle s (some d) =
      some { d with loadFreeFloatingData := (ParseBool s).1 } := by
  simp [afterFreeFloatingsToggle, h]

theorem afterVehicleOccupanciesToggle_some (s : String) (d : VehicleOccupanciesContext)
    (h : s.utf8ByteSize > 0) :
    afterVehicleOccupanciesToggle s (some d) =
      some { d with loadOccupancyData := (ParseBool s).1 } := by
  simp [afterVehicleOccupanciesToggle, h]

theorem afterFreeFloatingsToggle_empty (ctx : Option FreeFloatingsContext) :
    afterFreeFloatingsToggle "" ctx = ctx := rfl

theorem afterVehicleOccupanciesToggle_empty (ctx : Option VehicleOccupanciesContext) :
    afterVehicleOccupanciesToggle "" ctx = ctx := rfl

theorem afterFreeFloatingsToggle_lastUpdate (s : String) (ctx : Option FreeFloatingsContext) :
    (afterFreeFloatingsToggle s ctx).map (·.lastFreeFloatingsDataUpdate) =
      ctx.map (·.lastFreeFloatingsDataUpdate) := by
  unfold afterFreeFloatingsToggle
  split <;> cases ctx <;> rfl

theorem afterVehicleOccupanciesToggle_lastUpdate (s : String)
    (ctx : Option VehicleOccupanciesContext) :
    (afterVehicleOccupanciesToggle s ctx).map (·.lastVehicleOccupanciesDataUpdate) =
      ctx.map (·.lastVehicleOccupanciesDataUpdate) := by
  unfold afterVehicleOccupanciesToggle
  split <;> cases ctx <;> rfl

theorem afterFreeFloatingsToggle_none (s : String) :
    afterFreeFloatingsToggle s none = none := by
  unfold afterFreeFloatingsToggle
  split <;> rfl

theorem afterVehicleOccupanciesToggle_none (s : String) :
    afterVehicleOccupanciesToggle s none = none := by
  unfold afterVehicleOccupanciesToggle
  split <;> rfl

/-! ## Claims on `StatusHandler` -/

/-- C1 (as stated, refuted): with the free-floating feed enabled, the request
`/status?free_floatings=notabool` carries a non-empty value that `ParseBool`
rejects, yet the context's enabled flag is different afterwards and the reported
`refresh_active` is not the value before the request. -/
theorem StatusHandler_malformed_toggle_changes_flag :
    (statusContext [("free_floatings", ["notabool"])]).Query "free_floatings" = "notabool" ∧
    (ParseBool "notabool").2 ≠ none ∧
    env0.manager.freeFloatingsContext.map (·.loadFreeFloatingData) = some true ∧
    (((StatusHandler "v" (statusContext [("free_floatings", ["notabool"])])).exec
        env0).2.manager.freeFloatingsContext.map (·.loadFreeFloatingData)) = some false ∧
    (((StatusHandler "v" (statusContext [("free_floatings", ["notabool"])])).exec
        env0).2.body.map (·.FreeFloatings.RefreshActive)) = some false := by
  decide

/-- C1 (amended): for a configured toggle-capable feed context in any state and a
non-empty toggle value that `ParseBool` rejects, `StatusHandler` passes the `false`
that `ParseBool` returns next to its discarded error to the toggle: afterwards the
enabled flag is `false`, the timestamp is the same, and `refresh_active` is
reported `false`. -/
theorem StatusHandler_malformed_toggle_disables (ForsetiVersion : String) (c : GinContext)
    (env : Env) :
    (∀ d, env.manager.freeFloatingsContext = some d →
      c.Query "free_floatings" ≠ "" → (ParseBool (c.Query "free_floatings")).2 ≠ none →
      ((StatusHandler ForsetiVersion c).exec env).2.manager.freeFloatingsContext =
          some { d with loadFreeFloatingData := false } ∧
        ((StatusHandler ForsetiVersion c).exec env).2.body.map (·.FreeFloatings) =
          some ⟨false, d.lastFreeFloatingsDataUpdate⟩) ∧
    (∀ d, env.manager.vehicleOccupanciesContext = some d →
      c.Query "vehicle_occupancies" ≠ "" →
      (ParseBool (c.Query "vehicle_occupancies")).2 ≠ none →
      ((StatusHandler ForsetiVersion c).exec env).2.manager.vehicleOccupanciesContext =
          some { d with loadOccupancyData := false } ∧
        ((StatusHandler ForsetiVersion c).exec env).2.body.map (·.VehicleOccupancies) =
          some ⟨false, d.lastVehicleOccupanciesDataUpdate⟩) := by
  have hfalse : ∀ s : String, (ParseBool s).2 ≠ none → (ParseBool s).1 = false := by
    intro s hs
    unfold ParseBool at hs ⊢
    split <;> simp_all
  refine ⟨fun d hd hne herr => ?_, fun d hd hne herr => ?_⟩
  · simp only [StatusHandler_exec, managerAfter, responseOf, hd,
      afterFreeFloatingsToggle_some _ _ (utf8ByteSize_pos_of_ne _ hne), hfalse _ herr,
      freeFloatingsStatus, Option.map_some', and_self]
  · simp only [StatusHandler_exec, managerAfter, responseOf, hd,
      afterVehicleOccupanciesToggle_some _ _ (utf8ByteSize_pos_of_ne _ hne), hfalse _ herr,
      vehicleOccupanciesStatus, Option.map_some', and_self]

/-- Witness of C1 (amended): `vehicle_occupancies=maybe` on an enabled
vehicle-occupancy feed. -/
theorem StatusHandler_malformed_toggle_disables_witness :
    ((StatusHandler "v" (statusContext [("vehicle_occupancies", ["maybe"])])).exec
        env0).2.manager.vehicleOccupanciesContext = some ⟨false, ⟨6⟩⟩ ∧
    ((StatusHandler "v" (statusContext [("vehicle_occupancies", ["maybe"])])).exec
        env0).2.body.map (·.VehicleOccupancies) = some ⟨false, ⟨6⟩⟩ :=
  (StatusHandler_malformed_toggle_disables "v"
    (statusContext [("vehicle_occupancies", ["maybe"])]) env0).2 ⟨true, ⟨6⟩⟩ rfl
    (by decide) (by decide)

/-- C2: for a configured toggle-capable feed context in any state and a toggle
value that `ParseBool` accepts as `b`, `StatusHandler` applies the toggle before it
reads: the enabled flag after the request is `b` and the `refresh_active` of the
same response is `b`. -/
theorem StatusHandler_toggle_then_read (ForsetiVersion : String) (c : GinContext) (env : Env) :
    (∀ d b, env.manager.freeFloatingsContext = some d →
      ParseBool (c.Query "free_floatings") = (b, none) →
      ((StatusHandler ForsetiVersion c).exec env).2.manager.freeFloatingsContext =
          some { d with loadFreeFloatingData := b } ∧
        ((StatusHandler ForsetiVersion c).exec env).2.body.map (·.FreeFloatings.RefreshActive) =
          some b) ∧
    (∀ d b, env.manager.vehicleOccupanciesContext = some d →
      ParseBool (c.Query "vehicle_occupancies") = (b, none) →
      ((StatusHandler ForsetiVersion c).exec env).2.manager.vehicleOccupanciesContext =
          some { d with loadOccupancyData := b } ∧
        ((StatusHandler ForsetiVersion c).exec env).2.body.map
            (·.VehicleOccupancies.RefreshActive) = some b) := by
  refine ⟨fun d b hd hp => ?_, fun d b hd hp => ?_⟩
  · simp only [StatusHandler_exec, managerAfter, responseOf, hd,
      afterFreeFloatingsToggle_some _ _ (ParseBool_ok_ne_empty _ b hp), hp,
      freeFloatingsStatus, Option.map_some', and_self]
  · simp only [StatusHandler_exec, managerAfter, responseOf, hd,
      afterVehicleOccupanciesToggle_some _ _ (ParseBool_ok_ne_empty _ b hp), hp,
      vehicleOccupanciesStatus, Option.map_some', and_self]

/-- Witness of C2: `free_floatings=false` on an enabled free-floating feed is
answered with `refresh_active: false`. -/
theorem StatusHandler_toggle_then_read_witness :
    ((StatusHandler "v" (statusContext [("free_floatings", ["false"])])).exec
        env0).2.manager.freeFloatingsContext = some ⟨false, ⟨5⟩⟩ ∧
    ((StatusHandler "v" (statusContext [("free_floatings", ["false"])])).exec
        env0).2.body.map (·.FreeFloatings.RefreshActive) = some false :=
  (StatusHandler_toggle_then_read "v" (statusContext [("free_floatings", ["false"])]) env0).1
    ⟨true, ⟨5⟩⟩ false rfl (by decide)

/-- C3: whatever the query parameters, the response of `StatusHandler` carries the
zero timestamp for every feed whose context is absent, and `refresh_active = false`
with the zero timestamp for an absent free-floating or vehicle-occupancy feed; an
absent context stays absent, also when its toggle parameter is supplied. -/
theorem StatusHandler_absent_feeds_zero (ForsetiVersion : String) (c : GinContext) (env : Env) :
    ∃ resp, ((StatusHandler ForsetiVersion c).exec env).2.body = some resp ∧
      (env.manager.departuresContext = none → resp.LastDepartureUpdate = Time.zero) ∧
      (env.manager.parkingsContext = none → resp.LastParkingUpdate = Time.zero) ∧
      (env.manager.equipmentsContext = none → resp.LastEquipmentUpdate = Time.zero) ∧
      (env.manager.freeFloatingsContext = none →
        resp.FreeFloatings = ⟨false, Time.zero⟩ ∧
        ((StatusHandler ForsetiVersion c).exec env).2.manager.freeFloatingsContext = none) ∧
      (env.manager.vehicleOccupanciesContext = none →
        resp.VehicleOccupancies = ⟨false, Time.zero⟩ ∧
        ((StatusHandler ForsetiVersion c).exec env).2.manager.vehicleOccupanciesContext = none) := by
  refine ⟨responseOf ForsetiVersion (managerAfter c env.manager), ?_, ?_, ?_, ?_, ?_, ?_⟩
  · rw [StatusHandler_exec]
  · intro h
    simp only [responseOf, managerAfter, h, Option.map_none', Option.getD_none]
  · intro h
    simp only [responseOf, managerAfter, h, Option.map_none', Option.getD_none]
  · intro h
    simp only [responseOf, managerAfter, h, Option.map_none', Option.getD_none]
  · intro h
    simp only [StatusHandler_exec, responseOf, managerAfter, h, afterFreeFloatingsToggle_none,
      freeFloatingsStatus, and_self]
  · intro h
    simp only [StatusHandler_exec, responseOf, managerAfter, h,
      afterVehicleOccupanciesToggle_none, vehicleOccupanciesStatus, and_self]

/-- Witness of C3: with no feed configured and both toggle parameters supplied,
the free-floating field is `(false, zero timestamp)`. -/
theorem StatusHandler_absent_feeds_zero_witness :
    ∃ resp,
      ((StatusHandler "v" (statusContext [("free_floatings", ["true"]),
          ("vehicle_occupancies", ["true"])])).exec envAbsent).2.body = some resp ∧
      resp.LastEquipmentUpdate = Time.zero ∧
      resp.FreeFloatings = ⟨false, Time.zero⟩ ∧
      resp.VehicleOccupancies = ⟨false, Time.zero⟩ := by
  obtain ⟨resp, hb, _, _, heq, hff, hvo⟩ :=
    StatusHandler_absent_feeds_zero "v"
      (statusContext [("free_floatings", ["true"]), ("vehicle_occupancies", ["true"])]) envAbsent
  exact ⟨resp, hb, heq rfl, (hff rfl).1, (hvo rfl).1⟩

theorem MarshalJSON_ok (t : Time) (h : 0 ≤ t.Year ∧ t.Year < 10000) :
    t.MarshalJSON = Except.ok (JSONScalar.time t) := by
  unfold Time.MarshalJSON
  rw [if_neg]
  omega

theorem MarshalJSON_zero : Time.zero.MarshalJSON = Except.ok (JSONScalar.time Time.zero) := by
  decide

theorem lastUpdates_managerAfter (c : GinContext) (m : DataManager) :
    (managerAfter c m).lastUpdates = m.lastUpdates := by
  simp only [DataManager.lastUpdates, managerAfter, afterFreeFloatingsToggle_lastUpdate,
    afterVehicleOccupanciesToggle_lastUpdate]

theorem yearsInRange_managerAfter (c : GinContext) (m : DataManager) (h : m.yearsInRange) :
    (managerAfter c m).yearsInRange := by
  unfold DataManager.yearsInRange
  rw [lastUpdates_managerAfter]
  exact h

theorem freeFloatingsStatus_Marshal (ctx : Option FreeFloatingsContext)
    (h : ∀ t ∈ (ctx.map (·.lastFreeFloatingsDataUpdate)).toList, 0 ≤ t.Year ∧ t.Year < 10000) :
    (freeFloatingsStatus ctx).Marshal =
      Except.ok [("refresh_active", JSONScalar.bool (freeFloatingsStatus ctx).RefreshActive),
        ("last_update", JSONScalar.time (freeFloatingsStatus ctx).LastUpdate)] := by
  cases ctx with
  | none => simp only [freeFloatingsStatus, LoadingStatus.Marshal, MarshalJSON_zero]; rfl
  | some d =>
    simp only [freeFloatingsStatus, LoadingStatus.Marshal,
      MarshalJSON_ok _ (h d.lastFreeFloatingsDataUpdate (by simp))]
    rfl

theorem vehicleOccupanciesStatus_Marshal (ctx : Option VehicleOccupanciesContext)
    (h : ∀ t ∈ (ctx.map (·.lastVehicleOccupanciesDataUpdate)).toList,
      0 ≤ t.Year ∧ t.Year < 10000) :
    (vehicleOccupanciesStatus ctx).Marshal =
      Except.ok
        [("refresh_active", JSONScalar.bool (vehicleOccupanciesStatus ctx).RefreshActive),
        ("last_update", JSONScalar.time (vehicleOccupanciesStatus ctx).LastUpdate)] := by
  cases ctx with
  | none => simp only [vehicleOccupanciesStatus, LoadingStatus.Marshal, MarshalJSON_zero]; rfl
  | some d =>
    simp only [vehicleOccupanciesStatus, LoadingStatus.Marshal,
      MarshalJSON_ok _ (h d.lastVehicleOccupanciesDataUpdate (by simp))]
    rfl

theorem getD_MarshalJSON (o : Option Time)
    (h : ∀ t ∈ o.toList, 0 ≤ t.Year ∧ t.Year < 10000) :
    (o.getD Time.zero).MarshalJSON = Except.ok (JSONScalar.time (o.getD Time.zero)) := by
  cases o with
  | none => exact MarshalJSON_zero
  | some t => exact MarshalJSON_ok t (h t (by simp))

theorem responseOf_Marshal (ForsetiVersion : String) (m : DataManager) (h : m.yearsInRange) :
    (responseOf ForsetiVersion m).Marshal =
      Except.ok
        ([("status", JSONValue.scalar (JSONScalar.string "ok"))] ++
          (if ForsetiVersion = "" then []
            else [("version", JSONValue.scalar (JSONScalar.string ForsetiVersion))]) ++
          [("last_departure_update", JSONValue.scalar
              (JSONScalar.time (responseOf ForsetiVersion m).LastDepartureUpdate)),
           ("last_parking_update", JSONValue.scalar
              (JSONScalar.time (responseOf ForsetiVersion m).LastParkingUpdate)),
           ("last_equipment_update", JSONValue.scalar
              (JSONScalar.time (responseOf ForsetiVersion m).LastEquipmentUpdate)),
           ("free_floatings", JSONValue.object
              [("refresh_active",
                  JSONScalar.bool (responseOf ForsetiVersion m).FreeFloatings.RefreshActive),
               ("last_update",
                  JSONScalar.time (responseOf ForsetiVersion m).FreeFloatings.LastUpdate)]),
           ("vehicle_occupancies", JSONValue.object
              [("refresh_active",
                  JSONScalar.bool (responseOf ForsetiVersion m).VehicleOccupancies.RefreshActive),
               ("last_update",
                  JSONScalar.time
                    (responseOf ForsetiVersion m).VehicleOccupancies.LastUpdate)])]) := by
  unfold DataManager.yearsInRange DataManager.lastUpdates at h
  simp only [List.mem_append] at h
  have h₁ := getD_MarshalJSON (m.departuresContext.map (·.lastDepartureUpdate))
    (fun t ht => h t (by tauto))
  have h₂ := getD_MarshalJSON (m.parkingsContext.map (·.lastParkingUpdate))
    (fun t ht => h t (by tauto))
  have h₃ := getD_MarshalJSON (m.equipmentsContext.map (·.lastEquipmentUpdate))
    (fun t ht => h t (by tauto))
  have h₄ := freeFloatingsStatus_Marshal m.freeFloatingsContext (fun t ht => h t (by tauto))
  have h₅ := vehicleOccupanciesStatus_Marshal m.vehicleOccupanciesContext
    (fun t ht => h t (by tauto))
  simp only [StatusResponse.Marshal, responseOf, h₁, h₂, h₃, h₄, h₅]
  rfl

/-- C4 (as stated, refuted): with the equipments feed last refreshed in year 10000
the object `StatusHandler` hands to `c.JSON` cannot be encoded: the handler panics
with the encoder's error, no document is written, and the request served through
`gin.Recovery()` ends with status 500. -/
theorem StatusHandler_fails_on_year_10000 :
    envLate.manager.equipmentsContext = some ⟨⟨315537897600000000000⟩⟩ ∧
    Time.Year ⟨315537897600000000000⟩ = 10000 ∧
    ((StatusHandler "v" (statusContext [])).exec envLate).1 =
      Except.error (Panic.renderError "Time.MarshalJSON: year outside of range [0,9999]") ∧
    ((StatusHandler "v" (statusContext [])).exec envLate).2.written = none ∧
    (serveStatus "v" [] envLate).2.status = 500 ∧
    (serveStatus "v" [] envLate).2.written = none := by
  decide

/-- C4 (amended): for every combination of configured and absent feed contexts
whose last-refresh timestamps have a year in 0..9999 and every query,
`StatusHandler` returns without a panic, the response status is 200, the object
has status `"ok"`, and the document written carries, next to `status` and the
optional `version`, exactly the five feed members, the last two being objects with
the members `refresh_active` and `last_update`. -/
theorem StatusHandler_never_fails (ForsetiVersion : String) (c : GinContext) (env : Env)
    (h : env.manager.yearsInRange) :
    ((StatusHandler ForsetiVersion c).exec env).1 = Except.ok () ∧
    ((StatusHandler ForsetiVersion c).exec env).2.status = 200 ∧
    ∃ resp doc ff vo,
      ((StatusHandler ForsetiVersion c).exec env).2.body = some resp ∧
      resp.Status = "ok" ∧
      resp.Marshal = Except.ok doc ∧
      ((StatusHandler ForsetiVersion c).exec env).2.written = some doc ∧
      jsonKeys doc =
        "status" :: ((if ForsetiVersion = "" then [] else ["version"]) ++
          ["last_departure_update", "last_parking_update", "last_equipment_update",
           "free_floatings", "vehicle_occupancies"]) ∧
      doc.lookup "free_floatings" = some (JSONValue.object ff) ∧
      jsonKeys ff = ["refresh_active", "last_update"] ∧
      doc.lookup "vehicle_occupancies" = some (JSONValue.object vo) ∧
      jsonKeys vo = ["refresh_active", "last_update"] := by
  have hm := responseOf_Marshal ForsetiVersion _ (yearsInRange_managerAfter c _ h)
  refine ⟨by rw [StatusHandler_exec_fst, hm], by rw [StatusHandler_exec],
    responseOf ForsetiVersion (managerAfter c env.manager), _,
    [("refresh_active", JSONScalar.bool
        (responseOf ForsetiVersion (managerAfter c env.manager)).FreeFloatings.RefreshActive),
     ("last_update", JSONScalar.time
        (responseOf ForsetiVersion (managerAfter c env.manager)).FreeFloatings.LastUpdate)],
    [("refresh_active", JSONScalar.bool
        (responseOf ForsetiVersion (managerAfter c env.manager)).VehicleOccupancies.RefreshActive),
     ("last_update", JSONScalar.time
        (responseOf ForsetiVersion (managerAfter c env.manager)).VehicleOccupancies.LastUpdate)],
    by rw [StatusHandler_exec], rfl, hm, by rw [StatusHandler_exec, hm], ?_, ?_, rfl, ?_, rfl⟩
  · by_cases hv : ForsetiVersion = "" <;> simp [jsonKeys, hv]
  · by_cases hv : ForsetiVersion = "" <;> simp [hv, List.lookup]
  · by_cases hv : ForsetiVersion = "" <;> simp [hv, List.lookup]

/-- Witness of C4 (amended): every timestamp of `env0` lies in year 1, and the
request `/status?free_floatings=false` is answered 200 with a document. -/
theorem StatusHandler_never_fails_witness :
    env0.manager.yearsInRange ∧
    ((StatusHandler "v" (statusContext [("free_floatings", ["false"])])).exec env0).1 =
      Except.ok () ∧
    ((StatusHandler "v" (statusContext [("free_floatings", ["false"])])).exec env0).2.status =
      200 :=
  ⟨by decide,
    (StatusHandler_never_fails "v" (statusContext [("free_floatings", ["false"])]) env0
      (by decide)).1,
    (StatusHandler_never_fails "v" (statusContext [("free_floatings", ["false"])]) env0
      (by decide)).2.1⟩

/-- C5: a `StatusHandler` run whose two toggle parameters are missing (or empty)
leaves the whole environment apart from the response writer unchanged, in
particular every context's enabled flag and timestamp; a second such run right
after it returns the same object. -/
theorem StatusHandler_idempotent_without_toggles (ForsetiVersion : String)
    (c₁ c₂ : GinContext) (env : Env)
    (h₁ : c₁.Query "free_floatings" = "" ∧ c₁.Query "vehicle_occupancies" = "")
    (h₂ : c₂.Query "free_floatings" = "" ∧ c₂.Query "vehicle_occupancies" = "") :
    ((StatusHandler ForsetiVersion c₁).exec env).2.manager = env.manager ∧
    ((StatusHandler ForsetiVersion c₂).exec
        ((StatusHandler ForsetiVersion c₁).exec env).2).2.manager = env.manager ∧
    ((StatusHandler ForsetiVersion c₂).exec
        ((StatusHandler ForsetiVersion c₁).exec env).2).2.body =
      ((StatusHandler ForsetiVersion c₁).exec env).2.body ∧
    ((StatusHandler ForsetiVersion c₁).exec env).2.body ≠ none := by
  have e₁ : managerAfter c₁ env.manager = env.manager := by
    simp only [managerAfter, h₁.1, h₁.2, afterFreeFloatingsToggle_empty,
      afterVehicleOccupanciesToggle_empty]
  have e₂ : managerAfter c₂ env.manager = env.manager := by
    simp only [managerAfter, h₂.1, h₂.2, afterFreeFloatingsToggle_empty,
      afterVehicleOccupanciesToggle_empty]
  simp only [StatusHandler_exec, e₁, e₂, ne_eq, not_false_eq_true, and_self, reduceCtorEq]

/-- Witness of C5: two requests without toggle parameters, the second with an
unrelated parameter. -/
theorem StatusHandler_idempotent_without_toggles_witness :
    ((StatusHandler "v" (statusContext [])).exec env0).2.manager = env0.manager ∧
    ((StatusHandler "v" (statusContext [("x", ["1"])])).exec
        ((StatusHandler "v" (statusContext [])).exec env0).2).2.manager = env0.manager ∧
    ((StatusHandler "v" (statusContext [("x", ["1"])])).exec
        ((StatusHandler "v" (statusContext [])).exec env0).2).2.body =
      ((StatusHandler "v" (statusContext [])).exec env0).2.body ∧
    ((StatusHandler "v" (statusContext [])).exec env0).2.body ≠ none :=
  StatusHandler_idempotent_without_toggles "v" (statusContext []) (statusContext [("x", ["1"])])
    env0 (by decide) (by decide)

/-- C6: every feed member of the `StatusHandler` response is read from that
feed's own context: the three timestamps are the last-refresh timestamps of the
departures, parkings and equipments contexts, and `free_floatings` and
`vehicle_occupancies` are the (enabled, last-refresh timestamp) pair held by the
free-floating and the vehicle-occupancy context when the handler returns. -/
theorem StatusHandler_fields_own_feed (ForsetiVersion : String) (c : GinContext) (env : Env) :
    ∃ resp, ((StatusHandler ForsetiVersion c).exec env).2.body = some resp ∧
      (∀ d, env.manager.departuresContext = some d →
        resp.LastDepartureUpdate = d.lastDepartureUpdate) ∧
      (∀ d, env.manager.parkingsContext = some d →
        resp.LastParkingUpdate = d.lastParkingUpdate) ∧
      (∀ d, env.manager.equipmentsContext = some d →
        resp.LastEquipmentUpdate = d.lastEquipmentUpdate) ∧
      (∀ d, ((StatusHandler ForsetiVersion c).exec env).2.manager.freeFloatingsContext = some d →
        resp.FreeFloatings = ⟨d.loadFreeFloatingData, d.lastFreeFloatingsDataUpdate⟩) ∧
      (∀ d,
        ((StatusHandler ForsetiVersion c).exec env).2.manager.vehicleOccupanciesContext = some d →
        resp.VehicleOccupancies = ⟨d.loadOccupancyData, d.lastVehicleOccupanciesDataUpdate⟩) ∧
      (∀ d, env.manager.freeFloatingsContext = some d →
        resp.FreeFloatings.LastUpdate = d.lastFreeFloatingsDataUpdate) ∧
      (∀ d, env.manager.vehicleOccupanciesContext = some d →
        resp.VehicleOccupancies.LastUpdate = d.lastVehicleOccupanciesDataUpdate) := by
  refine ⟨responseOf ForsetiVersion (managerAfter c env.manager), ?_, ?_, ?_, ?_, ?_, ?_, ?_, ?_⟩
  · rw [StatusHandler_exec]
  · intro d h
    simp only [responseOf, managerAfter, h, Option.map_some', Option.getD_some]
  · intro d h
    simp only [responseOf, managerAfter, h, Option.map_some', Option.getD_some]
  · intro d h
    simp only [responseOf, managerAfter, h, Option.map_some', Option.getD_some]
  · intro d h
    rw [StatusHandler_exec] at h
    simp only at h
    simp only [responseOf, h, freeFloatingsStatus]
  · intro d h
    rw [StatusHandler_exec] at h
    simp only at h
    simp only [responseOf, h, vehicleOccupanciesStatus]
  · intro d h
    have := afterFreeFloatingsToggle_lastUpdate (c.Query "free_floatings") (some d)
    simp only [responseOf, managerAfter, h]
    cases hh : afterFreeFloatingsToggle (c.Query "free_floatings") (some d) <;>
      simp_all [freeFloatingsStatus]
  · intro d h
    have := afterVehicleOccupanciesToggle_lastUpdate (c.Query "vehicle_occupancies") (some d)
    simp only [responseOf, managerAfter, h]
    cases hh : afterVehicleOccupanciesToggle (c.Query "vehicle_occupancies") (some d) <;>
      simp_all [vehicleOccupanciesStatus]

/-- Witness of C6: with five distinct timestamps, every member carries the one of
its own feed. -/
theorem StatusHandler_fields_own_feed_witness :
    ∃ resp, ((StatusHandler "v" (statusContext [])).exec env0).2.body = some resp ∧
      resp.LastDepartureUpdate = ⟨7⟩ ∧ resp.LastParkingUpdate = ⟨8⟩ ∧
      resp.FreeFloatings = ⟨true, ⟨5⟩⟩ ∧ resp.VehicleOccupancies = ⟨true, ⟨6⟩⟩ := by
  obtain ⟨resp, hb, hdep, hpk, _, hff, hvo, _, _⟩ :=
    StatusHandler_fields_own_feed "v" (statusContext []) env0
  exact ⟨resp, hb, hdep ⟨⟨7⟩⟩ rfl, hpk ⟨⟨8⟩⟩ rfl, hff ⟨true, ⟨5⟩⟩ (by decide),
    hvo ⟨true, ⟨6⟩⟩ (by decide)⟩

/-- C9: frame of one `StatusHandler` run.  The departures, parkings and equipments
contexts, the last-refresh timestamps of the two toggle-capable contexts, the
metrics and the clock are unchanged; each toggle-capable context after the run is
determined by its state before and its own parameter alone; and a context whose
parameter is missing (or empty) is unchanged. -/
theorem StatusHandler_frame (ForsetiVersion : String) (c : GinContext) (env : Env) :
    ((StatusHandler ForsetiVersion c).exec env).2.manager.departuresContext =
      env.manager.departuresContext ∧
    ((StatusHandler ForsetiVersion c).exec env).2.manager.parkingsContext =
      env.manager.parkingsContext ∧
    ((StatusHandler ForsetiVersion c).exec env).2.manager.equipmentsContext =
      env.manager.equipmentsContext ∧
    ((StatusHandler ForsetiVersion c).exec env).2.manager.freeFloatingsContext.map
        (·.lastFreeFloatingsDataUpdate) =
      env.manager.freeFloatingsContext.map (·.lastFreeFloatingsDataUpdate) ∧
    ((StatusHandler ForsetiVersion c).exec env).2.manager.vehicleOccupanciesContext.map
        (·.lastVehicleOccupanciesDataUpdate) =
      env.manager.vehicleOccupanciesContext.map (·.lastVehicleOccupanciesDataUpdate) ∧
    (c.Query "free_floatings" = "" →
      ((StatusHandler ForsetiVersion c).exec env).2.manager.freeFloatingsContext =
        env.manager.freeFloatingsContext) ∧
    (c.Query "vehicle_occupancies" = "" →
      ((StatusHandler ForsetiVersion c).exec env).2.manager.vehicleOccupanciesContext =
        env.manager.vehicleOccupanciesContext) ∧
    (∀ (c₂ : GinContext) (env₂ : Env),
      c₂.Query "free_floatings" = c.Query "free_floatings" →
      env₂.manager.freeFloatingsContext = env.manager.freeFloatingsContext →
      ((StatusHandler ForsetiVersion c₂).exec env₂).2.manager.freeFloatingsContext =
        ((StatusHandler ForsetiVersion c).exec env).2.manager.freeFloatingsContext) ∧
    (∀ (c₂ : GinContext) (env₂ : Env),
      c₂.Query "vehicle_occupancies" = c.Query "vehicle_occupancies" →
      env₂.manager.vehicleOccupanciesContext = env.manager.vehicleOccupanciesContext →
      ((StatusHandler ForsetiVersion c₂).exec env₂).2.manager.vehicleOccupanciesContext =
        ((StatusHandler ForsetiVersion c).exec env).2.manager.vehicleOccupanciesContext) ∧
    ((StatusHandler ForsetiVersion c).exec env).2.httpInFlight = env.httpInFlight ∧
    ((StatusHandler ForsetiVersion c).exec env).2.httpDurations = env.httpDurations ∧
    ((StatusHandler ForsetiVersion c).exec env).2.now = env.now := by
  simp only [StatusHandler_exec, managerAfter, afterFreeFloatingsToggle_lastUpdate,
    afterVehicleOccupanciesToggle_lastUpdate, true_and, and_true]
  refine ⟨fun h => ?_, fun h => ?_, fun c₂ env₂ hq he => ?_, fun c₂ env₂ hq he => ?_⟩
  · rw [h, afterFreeFloatingsToggle_empty]
  · rw [h, afterVehicleOccupanciesToggle_empty]
  · rw [hq, he]
  · rw [hq, he]

/-- Witness of C9: a request carrying only `free_floatings=false` leaves the
vehicle-occupancy context as it was, and the free-floating context after it does
not depend on the `vehicle_occupancies` parameter. -/
theorem StatusHandler_frame_witness :
    ((StatusHandler "v" (statusContext [("free_floatings", ["false"])])).exec
        env0).2.manager.vehicleOccupanciesContext = env0.manager.vehicleOccupanciesContext ∧
    ((StatusHandler "v" (statusContext [("vehicle_occupancies", ["0"]),
        ("free_floatings", ["false"])])).exec env0).2.manager.freeFloatingsContext =
      ((StatusHandler "v" (statusContext [("free_floatings", ["false"])])).exec
        env0).2.manager.freeFloatingsContext :=
  ⟨(StatusHandler_frame "v" (statusContext [("free_floatings", ["false"])]) env0).2.2.2.2.2.2.1
      (by decide),
    (StatusHandler_frame "v" (statusContext [("free_floatings", ["false"])])
      env0).2.2.2.2.2.2.2.1 _ env0 (by decide) rfl⟩

/-! ## Claims on `instrumentGin` -/

theorem Recovery_StatusHandler_exec (ForsetiVersion : String) (c : GinContext) (env : Env) :
    (Recovery (StatusHandler ForsetiVersion c)).exec env =
      (Except.ok (),
        match (responseOf ForsetiVersion (managerAfter c env.manager)).Marshal with
        | Except.ok doc =>
          { env with
            manager := managerAfter c env.manager
            status := 200
            body := some (responseOf ForsetiVersion (managerAfter c env.manager))
            written := some doc }
        | Except.error _ =>
          { env with
            manager := managerAfter c env.manager
            status := 500
            body := some (responseOf ForsetiVersion (managerAfter c env.manager)) }) := by
  rw [exec_Recovery, StatusHandler_run, exec_JSON]
  generalize (responseOf ForsetiVersion (managerAfter c env.manager)).Marshal = m
  cases m <;> rfl

/-- One `/status` request served: the sample is labelled `"200"` when the object
can be encoded and `"500"` otherwise. -/
theorem serveStatus_eq (ForsetiVersion : String) (query : List (String × List String))
    (env : Env) :
    serveStatus ForsetiVersion query env =
      (Except.ok (),
        match (responseOf ForsetiVersion
          (managerAfter (statusContext query) env.manager)).Marshal with
        | Except.ok doc =>
          { env with
            manager := managerAfter (statusContext query) env.manager
            httpDurations := ⟨⟨statusHandlerName, "200"⟩, 0⟩ :: env.httpDurations
            status := 200
            body := some (responseOf ForsetiVersion
              (managerAfter (statusContext query) env.manager))
            written := some doc }
        | Except.error _ =>
          { env with
            manager := managerAfter (statusContext query) env.manager
            httpDurations := ⟨⟨statusHandlerName, "500"⟩, 0⟩ :: env.httpDurations
            status := 500
            body := some (responseOf ForsetiVersion
              (managerAfter (statusContext query) env.manager))
            written := none }) := by
  have hroute : SetupRouter ForsetiVersion "/status" =
      some (statusHandlerName,
        fun c => instrumentGin c (Recovery (StatusHandler ForsetiVersion c))) := by
    simp [SetupRouter]
  have h200 : Itoa 200 = "200" := by decide
  have h500 : Itoa 500 = "500" := by decide
  simp only [serveStatus, hroute]
  rw [instrumentGin_exec _ _ _ _ (Recovery_StatusHandler_exec _ _ _)]
  simp only [statusContext]
  generalize (responseOf ForsetiVersion
    (managerAfter { queryCache := query, handlerName := statusHandlerName } env.manager)).Marshal
    = m
  cases m <;> simp only [h200, h500, Int.add_sub_cancel, Int.sub_self]

theorem serveStatus_httpInFlight (ForsetiVersion : String) (query : List (String × List String))
    (env : Env) : (serveStatus ForsetiVersion query env).2.httpInFlight = env.httpInFlight := by
  rw [serveStatus_eq]
  generalize (responseOf ForsetiVersion
    (managerAfter (statusContext query) env.manager)).Marshal = m
  cases m <;> rfl

theorem serveStatus_manager (ForsetiVersion : String) (query : List (String × List String))
    (env : Env) :
    (serveStatus ForsetiVersion query env).2.manager =
      managerAfter (statusContext query) env.manager := by
  rw [serveStatus_eq]
  generalize (responseOf ForsetiVersion
    (managerAfter (statusContext query) env.manager)).Marshal = m
  cases m <;> rfl

theorem serveStatus_handlerCount (ForsetiVersion : String) (query : List (String × List String))
    (env : Env) :
    handlerCount (serveStatus ForsetiVersion query env).2 statusHandlerName =
      handlerCount env statusHandlerName + 1 := by
  rw [serveStatus_eq]
  generalize (responseOf ForsetiVersion
    (managerAfter (statusContext query) env.manager)).Marshal = m
  cases m <;> simp [handlerCount]

theorem serveStatus_histogramCount (ForsetiVersion : String)
    (query : List (String × List String)) (env : Env) (h : env.manager.yearsInRange) :
    histogramCount (serveStatus ForsetiVersion query env).2 ⟨statusHandlerName, "200"⟩ =
      histogramCount env ⟨statusHandlerName, "200"⟩ + 1 := by
  rw [serveStatus_eq, responseOf_Marshal _ _ (yearsInRange_managerAfter _ _ h)]
  simp [histogramCount]

theorem serveAll_httpInFlight (ForsetiVersion : String) (qs : List (List (String × List String)))
    (env : Env) : (serveAll ForsetiVersion qs env).httpInFlight = env.httpInFlight := by
  induction qs generalizing env with
  | nil => rfl
  | cons q qs ih => rw [serveAll, ih, serveStatus_httpInFlight]

theorem serveAll_handlerCount (ForsetiVersion : String)
    (qs : List (List (String × List String))) (env : Env) :
    handlerCount (serveAll ForsetiVersion qs env) statusHandlerName =
      handlerCount env statusHandlerName + qs.length := by
  induction qs generalizing env with
  | nil => rfl
  | cons q qs ih =>
    rw [serveAll, ih, serveStatus_handlerCount, List.length_cons]
    omega

theorem serveAll_histogramCount (ForsetiVersion : String)
    (qs : List (List (String × List String))) (env : Env) (h : env.manager.yearsInRange) :
    histogramCount (serveAll ForsetiVersion qs env) ⟨statusHandlerName, "200"⟩ =
      histogramCount env ⟨statusHandlerName, "200"⟩ + qs.length := by
  induction qs generalizing env with
  | nil => rfl
  | cons q qs ih =>
    have h' : (serveStatus ForsetiVersion q env).2.manager.yearsInRange := by
      rw [serveStatus_manager]
      exact yearsInRange_managerAfter _ _ h
    rw [serveAll, ih _ h', serveStatus_histogramCount _ _ _ h, List.length_cons]
    omega

/-- C7 (as stated, refuted): with the equipments feed last refreshed in year 10000,
one `/status` request is served to completion and the gauge is back at 0, but the
sample is recorded under code `"500"`: the count under (status handler, `"200"`)
is 0, not 1. -/
theorem serveStatus_sample_under_500 :
    (serveStatus "v" [] envLate).1 = Except.ok () ∧
    (serveAll "v" [[]] envLate).httpInFlight = 0 ∧
    histogramCount (serveAll "v" [[]] envLate) ⟨statusHandlerName, "200"⟩ = 0 ∧
    histogramCount (serveAll "v" [[]] envLate) ⟨statusHandlerName, "500"⟩ = 1 := by
  decide

/-- C7 (amended): whenever the rest of the chain, dispatched by `instrumentGin`
with the in-flight gauge already incremented, returns, `instrumentGin` returns with
the gauge decremented and exactly one more sample in `httpDurations`, labelled with
the handler name and the final status code; so after the requests `qs` to `/status`
have been served one after the other, the gauge has its initial value and one
sample per request has been recorded for the status handler, and the sample count
under (status handler, `"200"`) has grown by the number of requests whenever every
configured feed's last-refresh timestamp has a year in 0..9999. -/
theorem instrumentGin_in_flight_and_histogram :
    (∀ (c : GinContext) (next : Handler Unit) (env env₂ : Env),
      next.exec { env with httpInFlight := env.httpInFlight + 1 } = (Except.ok (), env₂) →
      (instrumentGin c next).exec env =
        (Except.ok (),
          { env₂ with
            httpInFlight := env₂.httpInFlight - 1
            httpDurations :=
              ⟨⟨c.handlerName, Itoa env₂.status⟩, env₂.now - env.now⟩ :: env₂.httpDurations })) ∧
    (∀ (ForsetiVersion : String) (qs : List (List (String × List String))) (env : Env),
      (serveAll ForsetiVersion qs env).httpInFlight = env.httpInFlight ∧
      handlerCount (serveAll ForsetiVersion qs env) statusHandlerName =
        handlerCount env statusHandlerName + qs.length ∧
      (env.manager.yearsInRange →
        histogramCount (serveAll ForsetiVersion qs env) ⟨statusHandlerName, "200"⟩ =
          histogramCount env ⟨statusHandlerName, "200"⟩ + qs.length)) :=
  ⟨instrumentGin_exec, fun v qs env =>
    ⟨serveAll_httpInFlight v qs env, serveAll_handlerCount v qs env,
      serveAll_histogramCount v qs env⟩⟩

/-- Witness of C7 (amended): one request through `instrumentGin`, `gin.Recovery()`
and `StatusHandler` leaves the gauge at 0 with a single sample, and three `/status`
requests served from a fresh registry leave the gauge at 0 and three samples under
(status handler, `"200"`). -/
theorem instrumentGin_in_flight_and_histogram_witness :
    (((instrumentGin (statusContext []) (Recovery (StatusHandler "v" (statusContext [])))).exec
        env0).2.httpInFlight = 0 ∧
      ((instrumentGin (statusContext []) (Recovery (StatusHandler "v" (statusContext [])))).exec
        env0).2.httpDurations = [⟨⟨statusHandlerName, "200"⟩, 0⟩]) ∧
    (serveAll "v" [[], [("free_floatings", ["false"])], [("vehicle_occupancies", ["x"])]]
      env0).httpInFlight = 0 ∧
    histogramCount
      (serveAll "v" [[], [("free_floatings", ["false"])], [("vehicle_occupancies", ["x"])]] env0)
      ⟨statusHandlerName, "200"⟩ = 3 :=
  ⟨by
    rw [instrumentGin_in_flight_and_histogram.1 (statusContext [])
      (Recovery (StatusHandler "v" (statusContext []))) env0 _
      (Recovery_StatusHandler_exec "v" (statusContext []) _)]
    decide,
   (instrumentGin_in_flight_and_histogram.2 "v"
    [[], [("free_floatings", ["false"])], [("vehicle_occupancies", ["x"])]] env0).1,
   (instrumentGin_in_flight_and_histogram.2 "v"
    [[], [("free_floatings", ["false"])], [("vehicle_occupancies", ["x"])]] env0).2.2
    (by decide)⟩

/-! ## Claims on concurrent requests -/

theorem exec_pure {α : Type} (a : α) (env : Env) :
    (pure a : Handler α).exec env = (Except.ok a, env) := rfl

theorem exec_map {α β : Type} (f : α → β) (x : Handler α) (env : Env) :
    (f <$> x).exec env =
      match x.exec env with
      | (Except.ok a, e) => (Except.ok (f a), e)
      | (Except.error p, e) => (Except.error p, e) := by
  rw [← bind_pure_comp, exec_bind]
  rfl

theorem exec_GetFreeFloatingsContext (env : Env) :
    GetFreeFloatingsContext.exec env = (Except.ok env.manager.freeFloatingsContext, env) := rfl

theorem exec_GetVehiculeOccupanciesContext (env : Env) :
    GetVehiculeOccupanciesContext.exec env =
      (Except.ok env.manager.vehicleOccupanciesContext, env) := rfl

theorem exec_GetEquipmentsContext (env : Env) :
    GetEquipmentsContext.exec env = (Except.ok env.manager.equipmentsContext, env) := rfl

theorem exec_GetDeparturesContext (env : Env) :
    GetDeparturesContext.exec env = (Except.ok env.manager.departuresContext, env) := rfl

theorem exec_GetParkingsContext (env : Env) :
    GetParkingsContext.exec env = (Except.ok env.manager.parkingsContext, env) := rfl

theorem exec_ManageFreeFloatingsStatus (b : Bool) (env : Env) :
    (ManageFreeFloatingsStatus b).exec env =
      match env.manager.freeFloatingsContext with
      | none => (Except.error Panic.nilPointerDereference, env)
      | some d => (Except.ok (), { env with manager :=
          { env.manager with
            freeFloatingsContext := some { d with loadFreeFloatingData := b } } }) := by
  obtain ⟨⟨ff, vo, eq, dep, pk⟩, gi, hd, now, est, ebd, ewr⟩ := env
  cases ff <;> rfl

theorem exec_GetLastFreeFloatingsDataUpdate (env : Env) :
    (GetLastFreeFloatingsDataUpdate).exec env =
      match env.manager.freeFloatingsContext with
      | none => (Except.error Panic.nilPointerDereference, env)
      | some d => (Except.ok d.lastFreeFloatingsDataUpdate, env) := by
  obtain ⟨⟨ff, vo, eq, dep, pk⟩, gi, hd, now, est, ebd, ewr⟩ := env
  cases ff <;> rfl

theorem exec_LoadFreeFloatingsData (env : Env) :
    (LoadFreeFloatingsData).exec env =
      match env.manager.freeFloatingsContext with
      | none => (Except.error Panic.nilPointerDereference, env)
      | some d => (Except.ok d.loadFreeFloatingData, env) := by
  obtain ⟨⟨ff, vo, eq, dep, pk⟩, gi, hd, now, est, ebd, ewr⟩ := env
  cases ff <;> rfl

theorem exec_ManageVehicleOccupancyStatus (b : Bool) (env : Env) :
    (ManageVehicleOccupancyStatus b).exec env =
      match env.manager.vehicleOccupanciesContext with
      | none => (Except.error Panic.nilPointerDereference, env)
      | some d => (Except.ok (), { env with manager :=
          { env.manager with
            vehicleOccupanciesContext := some { d with loadOccupancyData := b } } }) := by
  obtain ⟨⟨ff, vo, eq, dep, pk⟩, gi, hd, now, est, ebd, ewr⟩ := env
  cases vo <;> rfl

theorem exec_GetLastVehicleOccupanciesDataUpdate (env : Env) :
    (GetLastVehicleOccupanciesDataUpdate).exec env =
      match env.manager.vehicleOccupanciesContext with
      | none => (Except.error Panic.nilPointerDereference, env)
      | some d => (Except.ok d.lastVehicleOccupanciesDataUpdate, env) := by
  obtain ⟨⟨ff, vo, eq, dep, pk⟩, gi, hd, now, est, ebd, ewr⟩ := env
  cases vo <;> rfl

theorem exec_LoadOccupancyData (env : Env) :
    (LoadOccupancyData).exec env =
      match env.manager.vehicleOccupanciesContext with
      | none => (Except.error Panic.nilPointerDereference, env)
      | some d => (Except.ok d.loadOccupancyData, env) := by
  obtain ⟨⟨ff, vo, eq, dep, pk⟩, gi, hd, now, est, ebd, ewr⟩ := env
  cases vo <;> rfl

theorem exec_GetLastEquipmentsDataUpdate (env : Env) :
    (GetLastEquipmentsDataUpdate).exec env =
      match env.manager.equipmentsContext with
      | none => (Except.error Panic.nilPointerDereference, env)
      | some d => (Except.ok d.lastEquipmentUpdate, env) := by
  obtain ⟨⟨ff, vo, eq, dep, pk⟩, gi, hd, now, est, ebd, ewr⟩ := env
  cases eq <;> rfl

theorem exec_GetLastDepartureDataUpdate (env : Env) :
    (GetLastDepartureDataUpdate).exec env =
      match env.manager.departuresContext with
      | none => (Except.error Panic.nilPointerDereference, env)
      | some d => (Except.ok d.lastDepartureUpdate, env) := by
  obtain ⟨⟨ff, vo, eq, dep, pk⟩, gi, hd, now, est, ebd, ewr⟩ := env
  cases dep <;> rfl

theorem exec_GetLastParkingsDataUpdate (env : Env) :
    (GetLastParkingsDataUpdate).exec env =
      match env.manager.parkingsContext with
      | none => (Except.error Panic.nilPointerDereference, env)
      | some d => (Except.ok d.lastParkingUpdate, env) := by
  obtain ⟨⟨ff, vo, eq, dep, pk⟩, gi, hd, now, est, ebd, ewr⟩ := env
  cases pk <;> rfl

theorem Goroutine.step_at_0 (ForsetiVersion : String) (c : GinContext) (vars : StatusLocals) (st : Int)
    (bd : Option StatusResponse) (wr : Option (List (String × JSONValue))) (env : Env) :
    Goroutine.step ForsetiVersion ⟨c, 0, vars, st, bd, wr⟩ env =
      (⟨c, 1, { vars with begin := env.now }, st, bd, wr⟩,
        env) := by
  obtain ⟨⟨ff, vo, eq, dep, pk⟩, gi, hd, now, est, ebd, ewr⟩ := env
  simp [Goroutine.step, statusStep, exec_bind, exec_pure, exec_map,
    exec_timeNow]

theorem Goroutine.step_at_1 (ForsetiVersion : String) (c : GinContext) (vars : StatusLocals) (st : Int)
    (bd : Option StatusResponse) (wr : Option (List (String × JSONValue))) (env : Env) :
    Goroutine.step ForsetiVersion ⟨c, 1, vars, st, bd, wr⟩ env =
      (⟨c, 2, vars, st, bd, wr⟩,
        { env with httpInFlight := env.httpInFlight + 1 }) := by
  obtain ⟨⟨ff, vo, eq, dep, pk⟩, gi, hd, now, est, ebd, ewr⟩ := env
  simp [Goroutine.step, statusStep, exec_bind, exec_pure, exec_map,
    exec_httpInFlightInc]

theorem Goroutine.step_at_2 (ForsetiVersion : String) (c : GinContext) (vars : StatusLocals) (st : Int)
    (bd : Option StatusResponse) (wr : Option (List (String × JSONValue))) (env : Env) :
    Goroutine.step ForsetiVersion ⟨c, 2, vars, st, bd, wr⟩ env =
      (⟨c, 3, vars, st, bd, wr⟩,
        { env with manager := { env.manager with
          freeFloatingsContext :=
            afterFreeFloatingsToggle (c.Query "free_floatings")
              env.manager.freeFloatingsContext } }) := by
  obtain ⟨⟨ff, vo, eq, dep, pk⟩, gi, hd, now, est, ebd, ewr⟩ := env
  rcases hps : ParseBool (c.Query "free_floatings") with ⟨b, e⟩
  by_cases hsz : (c.Query "free_floatings").utf8ByteSize > 0 <;> cases ff <;>
  simp [Goroutine.step, statusStep, exec_bind, exec_pure, exec_map,
    exec_GetFreeFloatingsContext, exec_ManageFreeFloatingsStatus,
    afterFreeFloatingsToggle, hps, hsz]

theorem Goroutine.step_at_3 (ForsetiVersion : String) (c : GinContext) (vars : StatusLocals) (st : Int)
    (bd : Option StatusResponse) (wr : Option (List (String × JSONValue))) (env : Env) :
    Goroutine.step ForsetiVersion ⟨c, 3, vars, st, bd, wr⟩ env =
      (⟨c, 4, { vars with lastFreeFloatingsDataUpdate :=
          match env.manager.freeFloatingsContext with
          | some d => d.lastFreeFloatingsDataUpdate
          | none => vars.lastFreeFloatingsDataUpdate }, st, bd, wr⟩,
        env) := by
  obtain ⟨⟨ff, vo, eq, dep, pk⟩, gi, hd, now, est, ebd, ewr⟩ := env
  cases ff <;> simp [Goroutine.step, statusStep, exec_bind, exec_pure, exec_map,
    exec_GetFreeFloatingsContext, exec_GetLastFreeFloatingsDataUpdate]

theorem Goroutine.step_at_4 (ForsetiVersion : String) (c : GinContext) (vars : StatusLocals) (st : Int)
    (bd : Option StatusResponse) (wr : Option (List (String × JSONValue))) (env : Env) :
    Goroutine.step ForsetiVersion ⟨c, 4, vars, st, bd, wr⟩ env =
      (⟨c, 5, { vars with loadFreeFloatingData :=
          match env.manager.freeFloatingsContext with
          | some d => d.loadFreeFloatingData
          | none => vars.loadFreeFloatingData }, st, bd, wr⟩,
        env) := by
  obtain ⟨⟨ff, vo, eq, dep, pk⟩, gi, hd, now, est, ebd, ewr⟩ := env
  cases ff <;> simp [Goroutine.step, statusStep, exec_bind, exec_pure, exec_map,
    exec_GetFreeFloatingsContext, exec_LoadFreeFloatingsData]

theorem Goroutine.step_at_5 (ForsetiVersion : String) (c : GinContext) (vars : StatusLocals) (st : Int)
    (bd : Option StatusResponse) (wr : Option (List (String × JSONValue))) (env : Env) :
    Goroutine.step ForsetiVersion ⟨c, 5, vars, st, bd, wr⟩ env =
      (⟨c, 6, vars, st, bd, wr⟩,
        { env with manager := { env.manager with
          vehicleOccupanciesContext :=
            afterVehicleOccupanciesToggle (c.Query "vehicle_occupancies")
              env.manager.vehicleOccupanciesContext } }) := by
  obtain ⟨⟨ff, vo, eq, dep, pk⟩, gi, hd, now, est, ebd, ewr⟩ := env
  rcases hps : ParseBool (c.Query "vehicle_occupancies") with ⟨b, e⟩
  by_cases hsz : (c.Query "vehicle_occupancies").utf8ByteSize > 0 <;> cases vo <;>
  simp [Goroutine.step, statusStep, exec_bind, exec_pure, exec_map,
    exec_GetVehiculeOccupanciesContext, exec_ManageVehicleOccupancyStatus,
    afterVehicleOccupanciesToggle, hps, hsz]

theorem Goroutine.step_at_6 (ForsetiVersion : String) (c : GinContext) (vars : StatusLocals) (st : Int)
    (bd : Option StatusResponse) (wr : Option (List (String × JSONValue))) (env : Env) :
    Goroutine.step ForsetiVersion ⟨c, 6, vars, st, bd, wr⟩ env =
      (⟨c, 7, { vars with lastVehicleOccupanciesDataUpdate :=
          match env.manager.vehicleOccupanciesContext with
          | some d => d.lastVehicleOccupanciesDataUpdate
          | none => vars.lastVehicleOccupanciesDataUpdate }, st, bd, wr⟩,
        env) := by
  obtain ⟨⟨ff, vo, eq, dep, pk⟩, gi, hd, now, est, ebd, ewr⟩ := env
  cases vo <;> simp [Goroutine.step, statusStep, exec_bind, exec_pure, exec_map,
    exec_GetVehiculeOccupanciesContext, exec_GetLastVehicleOccupanciesDataUpdate]

theorem Goroutine.step_at_7 (ForsetiVersion : String) (c : GinContext) (vars : StatusLocals) (st : Int)
    (bd : Option StatusResponse) (wr : Option (List (String × JSONValue))) (env : Env) :
    Goroutine.step ForsetiVersion ⟨c, 7, vars, st, bd, wr⟩ env =
      (⟨c, 8, { vars with loadVehicleOccupanciesData :=
          match env.manager.vehicleOccupanciesContext with
          | some d => d.loadOccupancyData
          | none => vars.loadVehicleOccupanciesData }, st, bd, wr⟩,
        env) := by
  obtain ⟨⟨ff, vo, eq, dep, pk⟩, gi, hd, now, est, ebd, ewr⟩ := env
  cases vo <;> simp [Goroutine.step, statusStep, exec_bind, exec_pure, exec_map,
    exec_GetVehiculeOccupanciesContext, exec_LoadOccupancyData]

theorem Goroutine.step_at_8 (ForsetiVersion : String) (c : GinContext) (vars : StatusLocals) (st : Int)
    (bd : Option StatusResponse) (wr : Option (List (String × JSONValue))) (env : Env) :
    Goroutine.step ForsetiVersion ⟨c, 8, vars, st, bd, wr⟩ env =
      (⟨c, 9, { vars with lastEquipmentDataUpdate :=
          match env.manager.equipmentsContext with
          | some d => d.lastEquipmentUpdate
          | none => vars.lastEquipmentDataUpdate }, st, bd, wr⟩,
        env) := by
  obtain ⟨⟨ff, vo, eq, dep, pk⟩, gi, hd, now, est, ebd, ewr⟩ := env
  cases eq <;> simp [Goroutine.step, statusStep, exec_bind, exec_pure, exec_map,
    exec_GetEquipmentsContext, exec_GetLastEquipmentsDataUpdate]

theorem Goroutine.step_at_9 (ForsetiVersion : String) (c : GinContext) (vars : StatusLocals) (st : Int)
    (bd : Option StatusResponse) (wr : Option (List (String × JSONValue))) (env : Env) :
    Goroutine.step ForsetiVersion ⟨c, 9, vars, st, bd, wr⟩ env =
      (⟨c, 10, { vars with lastDeparturesDataUpdate :=
          match env.manager.departuresContext with
          | some d => d.lastDepartureUpdate
          | none => vars.lastDeparturesDataUpdate }, st, bd, wr⟩,
        env) := by
  obtain ⟨⟨ff, vo, eq, dep, pk⟩, gi, hd, now, est, ebd, ewr⟩ := env
  cases dep <;> simp [Goroutine.step, statusStep, exec_bind, exec_pure, exec_map,
    exec_GetDeparturesContext, exec_GetLastDepartureDataUpdate]

theorem Goroutine.step_at_10 (ForsetiVersion : String) (c : GinContext) (vars : StatusLocals) (st : Int)
    (bd : Option StatusResponse) (wr : Option (List (String × JSONValue))) (env : Env) :
    Goroutine.step ForsetiVersion ⟨c, 10, vars, st, bd, wr⟩ env =
      (⟨c, 11, { vars with lastParkingsDataUpdate :=
          match env.manager.parkingsContext with
          | some d => d.lastParkingUpdate
          | none => vars.lastParkingsDataUpdate }, st, bd, wr⟩,
        env) := by
  obtain ⟨⟨ff, vo, eq, dep, pk⟩, gi, hd, now, est, ebd, ewr⟩ := env
  cases pk <;> simp [Goroutine.step, statusStep, exec_bind, exec_pure, exec_map,
    exec_GetParkingsContext, exec_GetLastParkingsDataUpdate]

theorem Goroutine.step_at_11 (ForsetiVersion : String) (c : GinContext) (vars : StatusLocals) (st : Int)
    (bd : Option StatusResponse) (wr : Option (List (String × JSONValue))) (env : Env) :
    Goroutine.step ForsetiVersion ⟨c, 11, vars, st, bd, wr⟩ env =
      (⟨c, 12, vars,
          match (statusObject ForsetiVersion vars).Marshal with
          | Except.ok _ => 200
          | Except.error _ => 500,
          some (statusObject ForsetiVersion vars),
          match (statusObject ForsetiVersion vars).Marshal with
          | Except.ok doc => some doc
          | Except.error _ => wr⟩,
        env) := by
  obtain ⟨⟨ff, vo, eq, dep, pk⟩, gi, hd, now, est, ebd, ewr⟩ := env
  simp only [Goroutine.step, statusStep, exec_bind, exec_pure, exec_JSON, statusObject]
  generalize StatusResponse.Marshal _ = m
  cases m <;> simp

theorem Goroutine.step_at_12 (ForsetiVersion : String) (c : GinContext) (vars : StatusLocals) (st : Int)
    (bd : Option StatusResponse) (wr : Option (List (String × JSONValue))) (env : Env) :
    Goroutine.step ForsetiVersion ⟨c, 12, vars, st, bd, wr⟩ env =
      (⟨c, 13, vars, st, bd, wr⟩,
        { env with httpInFlight := env.httpInFlight - 1 }) := by
  obtain ⟨⟨ff, vo, eq, dep, pk⟩, gi, hd, now, est, ebd, ewr⟩ := env
  simp [Goroutine.step, statusStep, exec_bind, exec_pure, exec_map,
    exec_httpInFlightDec]

theorem Goroutine.step_at_13 (ForsetiVersion : String) (c : GinContext) (vars : StatusLocals) (st : Int)
    (bd : Option StatusResponse) (wr : Option (List (String × JSONValue))) (env : Env) :
    Goroutine.step ForsetiVersion ⟨c, 13, vars, st, bd, wr⟩ env =
      (⟨c, 14, vars, st, bd, wr⟩,
        { env with httpDurations :=
          ⟨⟨c.handlerName, Itoa st⟩, env.now - vars.begin⟩ :: env.httpDurations }) := by
  obtain ⟨⟨ff, vo, eq, dep, pk⟩, gi, hd, now, est, ebd, ewr⟩ := env
  simp [Goroutine.step, statusStep, exec_bind, exec_pure, exec_map,
    exec_writerStatus, exec_timeNow, exec_httpDurationsObserve]

/-- A goroutine that runs alone does what `serveStatus` does: after its 14 steps
the request is complete, its response writer and the shared state are those one
sequential pass through `instrumentGin`, `gin.Recovery()` and `StatusHandler`
leaves. -/
theorem Goroutine_alone (ForsetiVersion : String) (query : List (String × List String))
    (env : Env) :
    (runSchedule ForsetiVersion (List.replicate 14 0) [Goroutine.start query] env).1.map
        (fun g => (g.pc, g.status, g.body, g.written)) =
      [(14, (serveStatus ForsetiVersion query env).2.status,
        (serveStatus ForsetiVersion query env).2.body,
        (serveStatus ForsetiVersion query env).2.written)] ∧
    (runSchedule ForsetiVersion (List.replicate 14 0) [Goroutine.start query] env).2 =
      { (serveStatus ForsetiVersion query env).2 with
        status := env.status, body := env.body, written := env.written } := by
  have h200 : Itoa 200 = "200" := by decide
  have h500 : Itoa 500 = "500" := by decide
  rw [serveStatus_eq]
  simp only [List.replicate, runSchedule, stepAt, Goroutine.start, List.getElem?_cons_zero,
    List.set_cons_zero, Goroutine.step_at_0, Goroutine.step_at_1, Goroutine.step_at_2,
    Goroutine.step_at_3, Goroutine.step_at_4, Goroutine.step_at_5, Goroutine.step_at_6,
    Goroutine.step_at_7, Goroutine.step_at_8, Goroutine.step_at_9, Goroutine.step_at_10,
    Goroutine.step_at_11, Goroutine.step_at_12, Goroutine.step_at_13, List.map_cons,
    List.map_nil]
  obtain ⟨⟨ff, vo, eq, dep, pk⟩, gi, hd, now, est, ebd, ewr⟩ := env
  simp only [managerAfter, statusObject, responseOf, statusContext]
  generalize afterFreeFloatingsToggle _ ff = ff'
  generalize afterVehicleOccupanciesToggle _ vo = vo'
  cases ff' <;> cases vo' <;> cases eq <;> cases dep <;> cases pk <;>
  simp only [freeFloatingsStatus, vehicleOccupanciesStatus, Option.map_some', Option.map_none',
    Option.getD_some, Option.getD_none] <;>
  generalize StatusResponse.Marshal _ = m <;>
  cases m <;>
  simp [h200, h500]

end api


namespace sytralrt

theorem wrapInt_eq_self (x : Int) (h₁ : minInt ≤ x) (h₂ : x ≤ maxInt) : wrapInt x = x := by
  unfold wrapInt
  unfold minInt at h₁
  unfold maxInt at h₂
  omega

theorem wrapInt_add_wrapInt_sub (a t : Int) (h₁ : minInt ≤ t) (h₂ : t ≤ maxInt) :
    wrapInt (a + wrapInt (t - a)) = t := by
  unfold wrapInt
  unfold minInt at h₁
  unfold maxInt at h₂
  omega

/-- C10 (as stated, refuted): the counts of `overflowParking` are Go `int`s with
more available than total standard spaces, yet `occupied` is neither
`total - available` nor negative, and `available + occupied` is not the total. -/
theorem ParkingModelToResponse_overflow :
    overflowParking.inRange ∧
    overflowParking.TotalStandardSpaces < overflowParking.AvailableStandardSpaces ∧
    (ParkingModelToResponse overflowParking).OccupiedSpaces = 9223372036854775807 ∧
    (ParkingModelToResponse overflowParking).OccupiedSpaces ≠
      overflowParking.TotalStandardSpaces - overflowParking.AvailableStandardSpaces ∧
    ¬ (ParkingModelToResponse overflowParking).OccupiedSpaces < 0 ∧
    (ParkingModelToResponse overflowParking).AvailableSpaces +
        (ParkingModelToResponse overflowParking).OccupiedSpaces ≠
      overflowParking.TotalStandardSpaces := by
  decide

/-- C10 (amended): for every `Parking` whose counts are Go `int`s,
`ParkingModelToResponse` keeps ID, UpdatedTime and both available counts and sets
each occupied count to `total - available` in wrapping `int` arithmetic, so that
`available + occupied` is the total again under wrapping addition; whenever
`total - available` is itself an `int` the subtraction and the sum are exact and
occupied is negative exactly when available exceeds total. -/
theorem ParkingModelToResponse_occupied (p : Parking) (hp : p.inRange) :
    (ParkingModelToResponse p).ID = p.ID ∧
    (ParkingModelToResponse p).UpdatedTime = p.UpdatedTime ∧
    (ParkingModelToResponse p).AvailableSpaces = p.AvailableStandardSpaces ∧
    (ParkingModelToResponse p).AvailableAccessibleSpaces = p.AvailableAccessibleSpaces ∧
    (ParkingModelToResponse p).OccupiedSpaces =
      wrapInt (p.TotalStandardSpaces - p.AvailableStandardSpaces) ∧
    (ParkingModelToResponse p).OccupiedAccessibleSpaces =
      wrapInt (p.TotalAccessibleSpaces - p.AvailableAccessibleSpaces) ∧
    wrapInt ((ParkingModelToResponse p).AvailableSpaces +
      (ParkingModelToResponse p).OccupiedSpaces) = p.TotalStandardSpaces ∧
    wrapInt ((ParkingModelToResponse p).AvailableAccessibleSpaces +
      (ParkingModelToResponse p).OccupiedAccessibleSpaces) = p.TotalAccessibleSpaces ∧
    (minInt ≤ p.TotalStandardSpaces - p.AvailableStandardSpaces ∧
        p.TotalStandardSpaces - p.AvailableStandardSpaces ≤ maxInt →
      (ParkingModelToResponse p).OccupiedSpaces =
        p.TotalStandardSpaces - p.AvailableStandardSpaces ∧
      (ParkingModelToResponse p).AvailableSpaces + (ParkingModelToResponse p).OccupiedSpaces =
        p.TotalStandardSpaces ∧
      ((ParkingModelToResponse p).OccupiedSpaces < 0 ↔
        p.TotalStandardSpaces < p.AvailableStandardSpaces)) ∧
    (minInt ≤ p.TotalAccessibleSpaces - p.AvailableAccessibleSpaces ∧
        p.TotalAccessibleSpaces - p.AvailableAccessibleSpaces ≤ maxInt →
      (ParkingModelToResponse p).OccupiedAccessibleSpaces =
        p.TotalAccessibleSpaces - p.AvailableAccessibleSpaces ∧
      (ParkingModelToResponse p).AvailableAccessibleSpaces +
        (ParkingModelToResponse p).OccupiedAccessibleSpaces = p.TotalAccessibleSpaces ∧
      ((ParkingModelToResponse p).OccupiedAccessibleSpaces < 0 ↔
        p.TotalAccessibleSpaces < p.AvailableAccessibleSpaces)) := by
  obtain ⟨_, _, ⟨hs₁, hs₂⟩, ⟨ha₁, ha₂⟩⟩ := hp
  refine ⟨rfl, rfl, rfl, rfl, rfl, rfl, wrapInt_add_wrapInt_sub _ _ hs₁ hs₂,
    wrapInt_add_wrapInt_sub _ _ ha₁ ha₂, ?_, ?_⟩
  · rintro ⟨h₁, h₂⟩
    simp only [ParkingModelToResponse, wrapInt_eq_self _ h₁ h₂]
    refine ⟨trivial, by omega, ?_⟩
    constructor <;> intro h <;> omega
  · rintro ⟨h₁, h₂⟩
    simp only [ParkingModelToResponse, wrapInt_eq_self _ h₁ h₂]
    refine ⟨trivial, by omega, ?_⟩
    constructor <;> intro h <;> omega

/-- Witness of C10 (amended): a parking with 30 of 100 standard and 5 of 4
accessible spaces available. -/
theorem ParkingModelToResponse_occupied_witness :
    (ParkingModelToResponse fullParking).OccupiedSpaces = 70 ∧
    (ParkingModelToResponse fullParking).OccupiedAccessibleSpaces = -1 ∧
    ((ParkingModelToResponse fullParking).OccupiedAccessibleSpaces < 0 ↔
      fullParking.TotalAccessibleSpaces < fullParking.AvailableAccessibleSpaces) := by
  obtain ⟨_, _, _, _, _, _, _, _, hs, ha⟩ :=
    ParkingModelToResponse_occupied fullParking (by decide)
  exact ⟨(hs (by decide)).1, (ha (by decide)).1, (ha (by decide)).2.2⟩

end sytralrt
